import Mathlib

/-!
# PunchKick01: attack notify state and player character

A shallow embedding of `Source/PunchKick01/AttackStartNotifyState.cpp` and
`Source/PunchKick01/PunchKick01Character.cpp`.

Conventions of the embedding:

* every pointer the handlers read is an `Option`; dereferencing `none` is a
  `Fault` and ends the handler (`Except.error`);
* `float` values are exact rationals (`Rat`);
* every call a handler makes into the engine is recorded, in order, as an
  `EngineCall`; a handler returns the new state of `this` and the calls made;
* members the engine owns and rewrites between callbacks (`GEngine`,
  `GetWorld()`, the inherited `APawn::Controller`) and the next value of
  `rand()` are passed to each callback in an `Environment`;
* `__FUNCTION__` is the qualified name of the enclosing function, such as
  "APunchKick01Character::AttackStart".
-/

namespace PunchKick01

/-! ## Engine-side data -/

/-- The colours of `FColor` the two source files use. -/
inductive FColor where
  | Green | Cyan | White | Yellow | Red | Magenta
  deriving DecidableEq, Repr

/-- The verbosity levels of `ELogVerbosity` used by the `UE_LOG` lines of `Log`. -/
inductive ELogVerbosity where
  | VeryVerbose | Verbose | Log | Warning | Error
  deriving DecidableEq, Repr

/-- Modelled from the spec: the declaration of `ELogLevel` is in the header
`PunchKick01Character.h`, which is not among the sources. The spec calls it a
5-level severity enum; the five enumerators are the `case` labels of `Log`. -/
inductive ELogLevel where
  | TRACE | DEBUG | INFO | WARNING | ERROR
  deriving DecidableEq, Repr

/-- Modelled from the spec: the declaration of `ELogOutput` is in the header
`PunchKick01Character.h`, which is not among the sources. The spec has three
selectors: on-screen overlay, log sink, or both; the names are the ones `Log`
compares with. -/
inductive ELogOutput where
  | ALL | OUTPUT_LOG | SCREEN
  deriving DecidableEq, Repr

/-- The axes of `EAxis`. -/
inductive EAxis where
  | X | Y | Z
  deriving DecidableEq, Repr

/-- An `FRotator`: pitch, yaw, roll. -/
structure FRotator where
  Pitch : Rat
  Yaw : Rat
  Roll : Rat
  deriving DecidableEq

/-- An `FVector`: three coordinates, or the vector
`FRotationMatrix(Rotation).GetUnitAxis(Axis)` kept symbolic (its coordinates
are sines and cosines of the angles). -/
inductive FVector where
  | Coordinates (X Y Z : Rat)
  | UnitAxis (Rotation : FRotator) (Axis : EAxis)
  deriving DecidableEq

/-- The global engine object behind `GEngine`. -/
structure UEngine where
  deriving DecidableEq

/-- The world behind `GetWorld()`; only its frame time is read. -/
structure UWorld where
  DeltaSeconds : Rat
  deriving DecidableEq

/-- The controller behind `APawn::Controller`; only its control rotation is read. -/
structure AController where
  ControlRotation : FRotator
  deriving DecidableEq

/-- An animation montage asset. -/
structure UAnimMontage where
  AssetPath : String
  deriving DecidableEq

/-- A sound cue asset. -/
structure USoundCue where
  AssetPath : String
  deriving DecidableEq

/-- An audio component; `SetSound` writes `Sound`. -/
structure UAudioComponent where
  Sound : Option USoundCue
  deriving DecidableEq

/-- A box collision volume: the fields the character writes. `AttachSocketName`
is `none` while the box hangs on the root component; `OnComponentHit` lists the
bound handlers. -/
structure UBoxComponent where
  CollisionProfileName : String
  bNotifyRigidBodyCollision : Bool
  AttachSocketName : Option String
  OnComponentHit : List String
  deriving DecidableEq

/-- The actor a hit result points to; only its name is read. -/
structure AHitActor where
  Name : String
  deriving DecidableEq

/-- An `FHitResult`; `GetActor()` returns `Actor`. -/
structure FHitResult where
  Actor : Option AHitActor
  deriving DecidableEq

/-- What the engine hands to a callback: the global `GEngine`, the result of
`GetWorld()`, the inherited member `Controller`, and the value the next call of
`rand()` returns. -/
structure Environment where
  GEngine : Option UEngine
  World : Option UWorld
  Controller : Option AController
  rand : Nat

/-- A call from the module into the engine. -/
inductive EngineCall where
  | AddOnScreenDebugMessage (Key : Int) (TimeToDisplay : Rat) (DisplayColor : FColor)
      (DebugMessage : String)
  | UE_LOG (Verbosity : ELogVerbosity) (Message : String)
  | PlayAnimMontage (AnimMontage : Option UAnimMontage) (InPlayRate : Rat)
      (StartSectionName : String)
  | AudioPlay (StartTime : Rat)
  | AddControllerYawInput (Val : Rat)
  | AddControllerPitchInput (Val : Rat)
  | AddMovementInput (WorldDirection : FVector) (ScaleValue : Rat)
  | Jump
  | StopJumping
  | ResetOrientationAndPosition
  deriving DecidableEq

/-- A null pointer was dereferenced; the string names the pointer. -/
inductive Fault where
  | nullDereference (pointer : String)
  deriving DecidableEq, Repr

/-! ## The character -/

/-- The members of `APunchKick01Character` the module reads and writes. -/
structure APunchKick01Character where
  BaseTurnRate : Rat
  BaseLookUpRate : Rat
  MeleeFistAttackMontage : Option UAnimMontage
  PunchSoundCue : Option USoundCue
  PunchAudioComponent : Option UAudioComponent
  LeftFistCollisionBox : Option UBoxComponent
  RightFistCollisionBox : Option UBoxComponent
  deriving DecidableEq

/-- The result of a handler: a fault, or the new `this` and the engine calls made. -/
abbrev Outcome := Except Fault (APunchKick01Character × List EngineCall)

/-- `UPrimitiveComponent::SetCollisionProfileName`. -/
def UBoxComponent.SetCollisionProfileName (box : UBoxComponent) (name : String) : UBoxComponent :=
  { box with CollisionProfileName := name }

/-- `UPrimitiveComponent::SetNotifyRigidBodyCollision`. -/
def UBoxComponent.SetNotifyRigidBodyCollision (box : UBoxComponent) (b : Bool) : UBoxComponent :=
  { box with bNotifyRigidBodyCollision := b }

/-- The constructor, lines 17-82. The two `FObjectFinder` lookups are inputs:
each yields the asset or fails. -/
def APunchKick01Character.construct (MeleeFistAttackMontageObject : Option UAnimMontage)
    (PunchSoundCueObject : Option USoundCue) : APunchKick01Character :=
  { BaseTurnRate := 45
    BaseLookUpRate := 45
    MeleeFistAttackMontage := MeleeFistAttackMontageObject
    PunchSoundCue := PunchSoundCueObject
    PunchAudioComponent :=
      match PunchSoundCueObject with
      | some _ => some { Sound := none }
      | none => none
    LeftFistCollisionBox :=
      some (((UBoxComponent.mk "" false none []).SetCollisionProfileName
        "NoCollision").SetNotifyRigidBodyCollision false)
    RightFistCollisionBox :=
      some (((UBoxComponent.mk "" false none []).SetCollisionProfileName
        "NoCollision").SetNotifyRigidBodyCollision false) }

/-- The colour switch of `Log`, lines 276-298: the default colour, overwritten
per level. The default `FColor::Cyan` and the `default:` label are reached by
none of the five enumerators. -/
def LogColor (LogLevel : ELogLevel) : FColor :=
  match LogLevel with
  | ELogLevel.TRACE => FColor.Green
  | ELogLevel.DEBUG => FColor.Cyan
  | ELogLevel.INFO => FColor.White
  | ELogLevel.WARNING => FColor.Yellow
  | ELogLevel.ERROR => FColor.Red

/-- The verbosity switch of `Log`, lines 305-326; its `default:` label (verbosity
`Log`) is reached by none of the five enumerators. -/
def LogVerbosity (LogLevel : ELogLevel) : ELogVerbosity :=
  match LogLevel with
  | ELogLevel.TRACE => ELogVerbosity.VeryVerbose
  | ELogLevel.DEBUG => ELogVerbosity.Verbose
  | ELogLevel.INFO => ELogVerbosity.Log
  | ELogLevel.WARNING => ELogVerbosity.Warning
  | ELogLevel.ERROR => ELogVerbosity.Error

/-- The three-argument `Log`, lines 271-328. It reads `GEngine` only after
checking it, changes nothing in the character, and so is given by the calls it
makes. -/
def Log (GEngine : Option UEngine) (LogLevel : ELogLevel) (Message : String)
    (LogOutput : ELogOutput) : List EngineCall :=
  (if (LogOutput = ELogOutput.ALL ∨ LogOutput = ELogOutput.SCREEN) ∧ GEngine.isSome then
      [EngineCall.AddOnScreenDebugMessage (-1) (9 / 2) (LogColor LogLevel) Message]
    else [])
  ++
  (if LogOutput = ELogOutput.ALL ∨ LogOutput = ELogOutput.OUTPUT_LOG then
      [EngineCall.UE_LOG (LogVerbosity LogLevel) Message]
    else [])

/-- The two-argument `Log`, lines 266-269. -/
def Log2 (GEngine : Option UEngine) (LogLevel : ELogLevel) (Message : String) :
    List EngineCall :=
  Log GEngine LogLevel Message ELogOutput.ALL

/-- `AttackStart`, lines 219-230. -/
def AttackStart (env : Environment) (this : APunchKick01Character) : Outcome :=
  let logged := Log2 env.GEngine ELogLevel.INFO "APunchKick01Character::AttackStart"
  match this.LeftFistCollisionBox with
  | none => Except.error (Fault.nullDereference "LeftFistCollisionBox")
  | some left =>
    let left := (left.SetCollisionProfileName "Weapon").SetNotifyRigidBodyCollision true
    match this.RightFistCollisionBox with
    | none => Except.error (Fault.nullDereference "RightFistCollisionBox")
    | some right =>
      let right := (right.SetCollisionProfileName "Weapon").SetNotifyRigidBodyCollision true
      Except.ok
        ({ this with LeftFistCollisionBox := some left, RightFistCollisionBox := some right },
          logged)

/-- `AttackEnd`, lines 232-243. -/
def AttackEnd (env : Environment) (this : APunchKick01Character) : Outcome :=
  let logged := Log2 env.GEngine ELogLevel.INFO "APunchKick01Character::AttackEnd"
  match this.LeftFistCollisionBox with
  | none => Except.error (Fault.nullDereference "LeftFistCollisionBox")
  | some left =>
    let left := (left.SetCollisionProfileName "NoCollision").SetNotifyRigidBodyCollision false
    match this.RightFistCollisionBox with
    | none => Except.error (Fault.nullDereference "RightFistCollisionBox")
    | some right =>
      let right :=
        (right.SetCollisionProfileName "NoCollision").SetNotifyRigidBodyCollision false
      Except.ok
        ({ this with LeftFistCollisionBox := some left, RightFistCollisionBox := some right },
          logged)

/-- `BeginPlay`, lines 85-111 (`Super::BeginPlay()` is the engine's). -/
def BeginPlay (_env : Environment) (this : APunchKick01Character) : Outcome :=
  match this.LeftFistCollisionBox with
  | none => Except.error (Fault.nullDereference "LeftFistCollisionBox")
  | some left =>
    let left := { left with AttachSocketName := some "fist_l_collision" }
    match this.RightFistCollisionBox with
    | none => Except.error (Fault.nullDereference "RightFistCollisionBox")
    | some right =>
      let right := { right with AttachSocketName := some "fist_r_collision" }
      let left :=
        { left with
          OnComponentHit := left.OnComponentHit ++ ["APunchKick01Character::OnAttackHit"] }
      let right :=
        { right with
          OnComponentHit := right.OnComponentHit ++ ["APunchKick01Character::OnAttackHit"] }
      let audio :=
        match this.PunchAudioComponent, this.PunchSoundCue with
        | some _, some cue => some { Sound := some cue }
        | audio, _ => audio
      Except.ok
        ({ this with
            LeftFistCollisionBox := some left
            RightFistCollisionBox := some right
            PunchAudioComponent := audio },
          [])

/-- `OnResetVR`, lines 150-153. -/
def OnResetVR (_env : Environment) (this : APunchKick01Character) : Outcome :=
  Except.ok (this, [EngineCall.ResetOrientationAndPosition])

/-- `ACharacter::Jump`, an engine function bound and called by the module. -/
def Jump (_env : Environment) (this : APunchKick01Character) : Outcome :=
  Except.ok (this, [EngineCall.Jump])

/-- `ACharacter::StopJumping`, an engine function bound and called by the module. -/
def StopJumping (_env : Environment) (this : APunchKick01Character) : Outcome :=
  Except.ok (this, [EngineCall.StopJumping])

/-- `TouchStarted`, lines 155-158. -/
def TouchStarted (env : Environment) (this : APunchKick01Character) (_FingerIndex : Nat)
    (_Location : FVector) : Outcome :=
  Jump env this

/-- `TouchStopped`, lines 160-163. -/
def TouchStopped (env : Environment) (this : APunchKick01Character) (_FingerIndex : Nat)
    (_Location : FVector) : Outcome :=
  StopJumping env this

/-- `APawn::AddControllerYawInput`, an engine function bound and called by the module. -/
def AddControllerYawInput (_env : Environment) (this : APunchKick01Character) (Val : Rat) :
    Outcome :=
  Except.ok (this, [EngineCall.AddControllerYawInput Val])

/-- `APawn::AddControllerPitchInput`, an engine function bound and called by the module. -/
def AddControllerPitchInput (_env : Environment) (this : APunchKick01Character) (Val : Rat) :
    Outcome :=
  Except.ok (this, [EngineCall.AddControllerPitchInput Val])

/-- `TurnAtRate`, lines 165-169. -/
def TurnAtRate (env : Environment) (this : APunchKick01Character) (Rate : Rat) : Outcome :=
  match env.World with
  | none => Except.error (Fault.nullDereference "GetWorld()")
  | some world => AddControllerYawInput env this (Rate * this.BaseTurnRate * world.DeltaSeconds)

/-- `LookUpAtRate`, lines 171-175. -/
def LookUpAtRate (env : Environment) (this : APunchKick01Character) (Rate : Rat) : Outcome :=
  match env.World with
  | none => Except.error (Fault.nullDereference "GetWorld()")
  | some world =>
    AddControllerPitchInput env this (Rate * this.BaseLookUpRate * world.DeltaSeconds)

/-- `MoveForward`, lines 177-189. -/
def MoveForward (env : Environment) (this : APunchKick01Character) (Value : Rat) : Outcome :=
  match env.Controller with
  | some controller =>
    if Value ≠ 0 then
      let Rotation := controller.ControlRotation
      let YawRotation : FRotator := { Pitch := 0, Yaw := Rotation.Yaw, Roll := 0 }
      let Direction := FVector.UnitAxis YawRotation EAxis.X
      Except.ok (this, [EngineCall.AddMovementInput Direction Value])
    else Except.ok (this, [])
  | none => Except.ok (this, [])

/-- `MoveRight`, lines 191-204. -/
def MoveRight (env : Environment) (this : APunchKick01Character) (Value : Rat) : Outcome :=
  match env.Controller with
  | some controller =>
    if Value ≠ 0 then
      let Rotation := controller.ControlRotation
      let YawRotation : FRotator := { Pitch := 0, Yaw := Rotation.Yaw, Roll := 0 }
      let Direction := FVector.UnitAxis YawRotation EAxis.Y
      Except.ok (this, [EngineCall.AddMovementInput Direction Value])
    else Except.ok (this, [])
  | none => Except.ok (this, [])

/-- `FString::FromInt` on the non-negative values the module passes: the decimal
digits. -/
def FromInt (Num : Nat) : String :=
  Nat.repr Num

/-- The section name `AttackInput` builds from the value `r` of `rand()`,
lines 210-214. -/
def MontageSection (r : Nat) : String :=
  let MontageSectionIndex := r % 2 + 1
  "start_" ++ FromInt MontageSectionIndex

/-- `AttackInput`, lines 206-217. -/
def AttackInput (env : Environment) (this : APunchKick01Character) : Outcome :=
  let logged := Log2 env.GEngine ELogLevel.INFO "APunchKick01Character::AttackInput"
  Except.ok
    (this,
      logged ++ [EngineCall.PlayAnimMontage this.MeleeFistAttackMontage 1
        (MontageSection env.rand)])

/-- `OnAttackHit`, lines 245-254. Of its five parameters only `Hit` is read. -/
def OnAttackHit (env : Environment) (this : APunchKick01Character) (Hit : FHitResult) :
    Outcome :=
  match Hit.Actor with
  | none => Except.error (Fault.nullDereference "Hit.GetActor()")
  | some actor =>
    let logged := Log2 env.GEngine ELogLevel.WARNING actor.Name
    if this.PunchAudioComponent.isSome ∧ this.PunchSoundCue.isSome then
      Except.ok (this, logged ++ [EngineCall.AudioPlay 0])
    else Except.ok (this, logged)

/-! ## Input bindings -/

/-- The key events of `EInputEvent` the module binds. -/
inductive EInputEvent where
  | IE_Pressed | IE_Released
  deriving DecidableEq, Repr

/-- The member functions bound to actions. -/
inductive ActionHandler where
  | Jump | StopJumping | OnResetVR | AttackInput | AttackEnd
  deriving DecidableEq, Repr

/-- The member functions bound to axes. -/
inductive AxisHandler where
  | MoveForward | MoveRight | AddControllerYawInput | TurnAtRate | AddControllerPitchInput
  | LookUpAtRate
  deriving DecidableEq, Repr

/-- The member functions bound to touch events. -/
inductive TouchHandler where
  | TouchStarted | TouchStopped
  deriving DecidableEq, Repr

/-- The bindings held by a `UInputComponent`, in binding order. -/
structure UInputComponent where
  ActionBindings : List (String × EInputEvent × ActionHandler)
  AxisBindings : List (String × AxisHandler)
  TouchBindings : List (EInputEvent × TouchHandler)
  deriving DecidableEq

/-- `UInputComponent::BindAction`. -/
def UInputComponent.BindAction (ic : UInputComponent) (ActionName : String)
    (KeyEvent : EInputEvent) (Func : ActionHandler) : UInputComponent :=
  { ic with ActionBindings := ic.ActionBindings ++ [(ActionName, KeyEvent, Func)] }

/-- `UInputComponent::BindAxis`. -/
def UInputComponent.BindAxis (ic : UInputComponent) (AxisName : String) (Func : AxisHandler) :
    UInputComponent :=
  { ic with AxisBindings := ic.AxisBindings ++ [(AxisName, Func)] }

/-- `UInputComponent::BindTouch`. -/
def UInputComponent.BindTouch (ic : UInputComponent) (KeyEvent : EInputEvent)
    (Func : TouchHandler) : UInputComponent :=
  { ic with TouchBindings := ic.TouchBindings ++ [(KeyEvent, Func)] }

/-- `SetupPlayerInputComponent`, lines 116-146, on a component that is present
(`check(PlayerInputComponent)`). -/
def SetupPlayerInputComponent (PlayerInputComponent : UInputComponent) : UInputComponent :=
  let c := PlayerInputComponent
  let c := c.BindAction "Jump" EInputEvent.IE_Pressed ActionHandler.Jump
  let c := c.BindAction "Jump" EInputEvent.IE_Released ActionHandler.StopJumping
  let c := c.BindAxis "MoveForward" AxisHandler.MoveForward
  let c := c.BindAxis "MoveRight" AxisHandler.MoveRight
  let c := c.BindAxis "Turn" AxisHandler.AddControllerYawInput
  let c := c.BindAxis "TurnRate" AxisHandler.TurnAtRate
  let c := c.BindAxis "LookUp" AxisHandler.AddControllerPitchInput
  let c := c.BindAxis "LookUpRate" AxisHandler.LookUpAtRate
  let c := c.BindTouch EInputEvent.IE_Pressed TouchHandler.TouchStarted
  let c := c.BindTouch EInputEvent.IE_Released TouchHandler.TouchStopped
  let c := c.BindAction "ResetVR" EInputEvent.IE_Pressed ActionHandler.OnResetVR
  let c := c.BindAction "Attack" EInputEvent.IE_Pressed ActionHandler.AttackInput
  let c := c.BindAction "Attack" EInputEvent.IE_Released ActionHandler.AttackEnd
  c

/-- The member function behind an action binding. -/
def ActionHandler.call : ActionHandler → Environment → APunchKick01Character → Outcome
  | ActionHandler.Jump => PunchKick01.Jump
  | ActionHandler.StopJumping => PunchKick01.StopJumping
  | ActionHandler.OnResetVR => PunchKick01.OnResetVR
  | ActionHandler.AttackInput => PunchKick01.AttackInput
  | ActionHandler.AttackEnd => PunchKick01.AttackEnd

/-- The member function behind an axis binding. -/
def AxisHandler.call : AxisHandler → Environment → APunchKick01Character → Rat → Outcome
  | AxisHandler.MoveForward => PunchKick01.MoveForward
  | AxisHandler.MoveRight => PunchKick01.MoveRight
  | AxisHandler.AddControllerYawInput => PunchKick01.AddControllerYawInput
  | AxisHandler.TurnAtRate => PunchKick01.TurnAtRate
  | AxisHandler.AddControllerPitchInput => PunchKick01.AddControllerPitchInput
  | AxisHandler.LookUpAtRate => PunchKick01.LookUpAtRate

/-- The member function behind a touch binding. -/
def TouchHandler.call :
    TouchHandler → Environment → APunchKick01Character → Nat → FVector → Outcome
  | TouchHandler.TouchStarted => PunchKick01.TouchStarted
  | TouchHandler.TouchStopped => PunchKick01.TouchStopped

/-- An input the engine's input system delivers to a possessed character. -/
inductive InputEvent where
  | Action (ActionName : String) (KeyEvent : EInputEvent)
  | Axis (AxisName : String) (AxisValue : Rat)
  | Touch (KeyEvent : EInputEvent) (FingerIndex : Nat) (Location : FVector)
  deriving DecidableEq

/-- The handlers the input system calls for an input: those bound to it, in
binding order. -/
def UInputComponent.handlersFor (ic : UInputComponent) (env : Environment) :
    InputEvent → List (APunchKick01Character → Outcome)
  | InputEvent.Action ActionName KeyEvent =>
    (ic.ActionBindings.filter (fun b => b.1 = ActionName ∧ b.2.1 = KeyEvent)).map
      (fun b => b.2.2.call env)
  | InputEvent.Axis AxisName AxisValue =>
    (ic.AxisBindings.filter (fun b => b.1 = AxisName)).map
      (fun b => fun this => b.2.call env this AxisValue)
  | InputEvent.Touch KeyEvent FingerIndex Location =>
    (ic.TouchBindings.filter (fun b => b.1 = KeyEvent)).map
      (fun b => fun this => b.2.call env this FingerIndex Location)

/-- Handlers run one after the other on the same character; a fault stops the
sequence. -/
def runHandlers : List (APunchKick01Character → Outcome) → APunchKick01Character → Outcome
  | [], this => Except.ok (this, [])
  | h :: rest, this =>
    match h this with
    | Except.error fault => Except.error fault
    | Except.ok (this1, calls1) =>
      match runHandlers rest this1 with
      | Except.error fault => Except.error fault
      | Except.ok (this2, calls2) => Except.ok (this2, calls1 ++ calls2)

/-- The input component of a possessed character: what
`SetupPlayerInputComponent` binds on an empty component. -/
def PlayerInput : UInputComponent :=
  SetupPlayerInputComponent { ActionBindings := [], AxisBindings := [], TouchBindings := [] }

/-- Delivery of one input to a character. -/
def OnInput (env : Environment) (this : APunchKick01Character) (input : InputEvent) : Outcome :=
  runHandlers (PlayerInput.handlersFor env input) this

/-! ## The level and the animation notify state -/

/-- Actors are named by their address. -/
abbrev ActorId := Nat

/-- An actor of the level: a `APunchKick01Character`, or an actor of another class. -/
inductive AActor where
  | PunchKick01Character (character : APunchKick01Character)
  | Other (ClassName : String)
  deriving DecidableEq

/-- `Cast<APunchKick01Character>`. -/
def Cast (actor : AActor) : Option APunchKick01Character :=
  match actor with
  | AActor.PunchKick01Character character => some character
  | AActor.Other _ => none

/-- A skeletal mesh component; `GetOwner()` returns `Owner`. -/
structure USkeletalMeshComponent where
  Owner : Option ActorId
  deriving DecidableEq

/-- The actors of the level, by address. -/
structure Level where
  Actors : ActorId → AActor

/-- The level after a handler has rewritten the character at `id`. -/
def Level.write (level : Level) (id : ActorId) (character : APunchKick01Character) : Level :=
  { Actors := fun other =>
      if other = id then AActor.PunchKick01Character character else level.Actors other }

/-- The result of a callback on the level. -/
abbrev LevelOutcome := Except Fault (Level × List EngineCall)

/-- `UAttackStartNotifyState::NotifyBegin`, lines 8-20. `Animation` and
`TotalDuration` are not read. -/
def NotifyBegin (env : Environment) (level : Level) (MeshComp : Option USkeletalMeshComponent)
    (_TotalDuration : Rat) : LevelOutcome :=
  match env.GEngine with
  | none => Except.error (Fault.nullDereference "GEngine")
  | some _ =>
    let shown := [EngineCall.AddOnScreenDebugMessage (-1) (9 / 2) FColor.Magenta
      "UAttackStartNotifyState::NotifyBegin"]
    match MeshComp with
    | none => Except.ok (level, shown)
    | some mesh =>
      match mesh.Owner with
      | none => Except.ok (level, shown)
      | some owner =>
        match Cast (level.Actors owner) with
        | none => Except.ok (level, shown)
        | some Player =>
          match AttackStart env Player with
          | Except.error fault => Except.error fault
          | Except.ok (Player1, calls) => Except.ok (level.write owner Player1, shown ++ calls)

/-- `UAttackStartNotifyState::NotifyEnd`, lines 22-36. `Animation` is not read. -/
def NotifyEnd (env : Environment) (level : Level) (MeshComp : Option USkeletalMeshComponent) :
    LevelOutcome :=
  match env.GEngine with
  | none => Except.error (Fault.nullDereference "GEngine")
  | some _ =>
    let shown := [EngineCall.AddOnScreenDebugMessage (-1) (9 / 2) FColor.Magenta
      "UAttackStartNotifyState::NotifyEnd"]
    match MeshComp with
    | none => Except.ok (level, shown)
    | some mesh =>
      match mesh.Owner with
      | none => Except.ok (level, shown)
      | some owner =>
        match Cast (level.Actors owner) with
        | none => Except.ok (level, shown)
        | some Player =>
          match AttackEnd env Player with
          | Except.error fault => Except.error fault
          | Except.ok (Player1, calls) => Except.ok (level.write owner Player1, shown ++ calls)

/-! ## Event sequences -/

/-- A callback the engine makes into the module. -/
inductive Callback where
  | NotifyBegin (MeshComp : Option USkeletalMeshComponent) (TotalDuration : Rat)
  | NotifyEnd (MeshComp : Option USkeletalMeshComponent)
  | BeginPlay (who : ActorId)
  | Input (who : ActorId) (input : InputEvent)
  | OnComponentHit (who : ActorId) (Hit : FHitResult)

/-- A callback together with what the engine hands to it. -/
structure Event where
  env : Environment
  callback : Callback

/-- A handler of the character run on the actor at `who`; on an actor of another
class there is no such handler and nothing happens. -/
def onCharacter (level : Level) (who : ActorId) (handler : APunchKick01Character → Outcome) :
    LevelOutcome :=
  match Cast (level.Actors who) with
  | none => Except.ok (level, [])
  | some this =>
    match handler this with
    | Except.error fault => Except.error fault
    | Except.ok (this1, calls) => Except.ok (level.write who this1, calls)

/-- One callback. -/
def step (level : Level) (event : Event) : LevelOutcome :=
  match event.callback with
  | Callback.NotifyBegin MeshComp TotalDuration =>
    NotifyBegin event.env level MeshComp TotalDuration
  | Callback.NotifyEnd MeshComp => NotifyEnd event.env level MeshComp
  | Callback.BeginPlay who => onCharacter level who (BeginPlay event.env)
  | Callback.Input who input =>
    onCharacter level who (fun this => OnInput event.env this input)
  | Callback.OnComponentHit who Hit =>
    onCharacter level who (fun this => OnAttackHit event.env this Hit)

/-- A sequence of callbacks, in order; a fault ends the run. -/
def run : Level → List Event → LevelOutcome
  | level, [] => Except.ok (level, [])
  | level, event :: rest =>
    match step level event with
    | Except.error fault => Except.error fault
    | Except.ok (level1, calls1) =>
      match run level1 rest with
      | Except.error fault => Except.error fault
      | Except.ok (level2, calls2) => Except.ok (level2, calls1 ++ calls2)

/-! ## Vocabulary of the properties -/

/-- A fist volume is present and reports the given collision profile and
hit-notification flag. -/
def boxReports (box : Option UBoxComponent) (profile : String) (notify : Bool) : Prop :=
  match box with
  | some b => b.CollisionProfileName = profile ∧ b.bNotifyRigidBodyCollision = notify
  | none => False

instance (box : Option UBoxComponent) (profile : String) (notify : Bool) :
    Decidable (boxReports box profile notify) := by
  unfold boxReports
  split <;> infer_instance

/-- Both fist volumes are armed: profile "Weapon", hit notification on. -/
def fistsArmed (this : APunchKick01Character) : Prop :=
  boxReports this.LeftFistCollisionBox "Weapon" true ∧
    boxReports this.RightFistCollisionBox "Weapon" true

/-- Both fist volumes are disarmed: profile "NoCollision", hit notification off. -/
def fistsDisarmed (this : APunchKick01Character) : Prop :=
  boxReports this.LeftFistCollisionBox "NoCollision" false ∧
    boxReports this.RightFistCollisionBox "NoCollision" false

instance (this : APunchKick01Character) : Decidable (fistsArmed this) := by
  unfold fistsArmed
  infer_instance

instance (this : APunchKick01Character) : Decidable (fistsDisarmed this) := by
  unfold fistsDisarmed
  infer_instance

/-- The call writes a message to the on-screen overlay. -/
def EngineCall.isOnScreen : EngineCall → Bool
  | EngineCall.AddOnScreenDebugMessage _ _ _ _ => true
  | _ => false

/-- The call writes an entry to the log sink. -/
def EngineCall.isLogEntry : EngineCall → Bool
  | EngineCall.UE_LOG _ _ => true
  | _ => false

/-- The call starts a sound playback. -/
def EngineCall.isPlayback : EngineCall → Bool
  | EngineCall.AudioPlay _ => true
  | _ => false

/-- The call plays a montage. -/
def EngineCall.isMontage : EngineCall → Bool
  | EngineCall.PlayAnimMontage _ _ _ => true
  | _ => false

/-- The text a call carries to the overlay or to the log sink. -/
def EngineCall.text : EngineCall → Option String
  | EngineCall.AddOnScreenDebugMessage _ _ _ DebugMessage => some DebugMessage
  | EngineCall.UE_LOG _ Message => some Message
  | _ => none

/-- The severity table as the specification words it: level, on-screen colour,
engine log severity. -/
def SeverityTable : List (ELogLevel × FColor × ELogVerbosity) :=
  [ (ELogLevel.TRACE, FColor.Green, ELogVerbosity.VeryVerbose),
    (ELogLevel.DEBUG, FColor.Cyan, ELogVerbosity.Verbose),
    (ELogLevel.INFO, FColor.White, ELogVerbosity.Log),
    (ELogLevel.WARNING, FColor.Yellow, ELogVerbosity.Warning),
    (ELogLevel.ERROR, FColor.Red, ELogVerbosity.Error) ]

/-- The mesh is the one of the actor at `self`: it is present and that actor
owns it. -/
def ownMesh (self : ActorId) (MeshComp : Option USkeletalMeshComponent) : Bool :=
  match MeshComp with
  | some mesh => mesh.Owner = some self
  | none => false

/-- The character a notify resolves to: the mesh is present, its owner is
present, and the owner is a `APunchKick01Character`. -/
def resolvedCharacter (level : Level) (MeshComp : Option USkeletalMeshComponent) :
    Option (ActorId × APunchKick01Character) :=
  match MeshComp with
  | none => none
  | some mesh =>
    match mesh.Owner with
    | none => none
    | some owner =>
      match level.Actors owner with
      | AActor.PunchKick01Character character => some (owner, character)
      | AActor.Other _ => none

/-- The notify window of the actor at `self` after one more callback: opened by
`NotifyBegin` on its mesh, closed by `NotifyEnd` on its mesh. -/
def notifyWindow (self : ActorId) (isOpen : Bool) : Callback → Bool
  | Callback.NotifyBegin MeshComp _ => if ownMesh self MeshComp then true else isOpen
  | Callback.NotifyEnd MeshComp => if ownMesh self MeshComp then false else isOpen
  | _ => isOpen

/-- After the events, a `NotifyBegin` on the mesh of `self` has occurred and no
`NotifyEnd` on that mesh has occurred since. -/
def inNotifyWindow (self : ActorId) (events : List Event) : Bool :=
  events.foldl (fun isOpen event => notifyWindow self isOpen event.callback) false

/-- The input is the release of the Attack action. -/
def isAttackRelease (input : InputEvent) : Bool :=
  input = InputEvent.Action "Attack" EInputEvent.IE_Released

/-- The armed window of the actor at `self` after one more callback: opened by
`NotifyBegin` on its mesh, closed by `NotifyEnd` on its mesh and by the release
of the Attack action on it. -/
def armedWindow (self : ActorId) (isOpen : Bool) : Callback → Bool
  | Callback.NotifyBegin MeshComp _ => if ownMesh self MeshComp then true else isOpen
  | Callback.NotifyEnd MeshComp => if ownMesh self MeshComp then false else isOpen
  | Callback.Input who input => if who = self ∧ isAttackRelease input then false else isOpen
  | _ => isOpen

/-- After the events, a `NotifyBegin` on the mesh of `self` has occurred and
neither a `NotifyEnd` on that mesh nor a release of the Attack action on `self`
has occurred since. -/
def inArmedWindow (self : ActorId) (events : List Event) : Bool :=
  events.foldl (fun isOpen event => armedWindow self isOpen event.callback) false

/-- The number of entries at verbosity `Log` with the given text: `AttackStart`,
`AttackEnd` and `AttackInput` write one such entry, their own name, as their
first statement, so this counts their invocations. -/
def invocations (handler : String) (calls : List EngineCall) : Nat :=
  (calls.filter (fun call => call = EngineCall.UE_LOG ELogVerbosity.Log handler)).length

/-- The overlay message `NotifyBegin` shows first. -/
def shownNotifyBegin : EngineCall :=
  EngineCall.AddOnScreenDebugMessage (-1) (9 / 2) FColor.Magenta
    "UAttackStartNotifyState::NotifyBegin"

/-- The overlay message `NotifyEnd` shows first. -/
def shownNotifyEnd : EngineCall :=
  EngineCall.AddOnScreenDebugMessage (-1) (9 / 2) FColor.Magenta
    "UAttackStartNotifyState::NotifyEnd"

/-- A handler keeps the fists as they are: when it returns, armed fists are
still armed and disarmed fists still disarmed. -/
def KeepsFists (handler : APunchKick01Character → Outcome) : Prop :=
  ∀ this this1 calls, handler this = Except.ok (this1, calls) →
    (fistsArmed this → fistsArmed this1) ∧ (fistsDisarmed this → fistsDisarmed this1)

/-- The actor at `self` is a character whose fists are armed when the armed
window is open and disarmed when it is closed. -/
def FistsFollow (self : ActorId) (level : Level) (isOpen : Bool) : Prop :=
  ∃ this, level.Actors self = AActor.PunchKick01Character this
    ∧ (if isOpen then fistsArmed this else fistsDisarmed this)

/-! ## Sample inputs -/

/-- A character whose fists are in two different states, neither the armed nor
the disarmed one. -/
def sampleCharacter : APunchKick01Character :=
  { BaseTurnRate := 45
    BaseLookUpRate := 45
    MeleeFistAttackMontage := some { AssetPath := "MeleeFistAttackMontage" }
    PunchSoundCue := some { AssetPath := "punch_01_Cue" }
    PunchAudioComponent := some { Sound := none }
    LeftFistCollisionBox := some (UBoxComponent.mk "Weapon" false none [])
    RightFistCollisionBox := some (UBoxComponent.mk "NoCollision" true none []) }

/-- A frame of a running game: engine, world at 60 frames a second, a
controller, and `rand()` about to return 7. -/
def sampleEnvironment : Environment :=
  { GEngine := some UEngine.mk
    World := some { DeltaSeconds := 1 / 60 }
    Controller := some { ControlRotation := { Pitch := 10, Yaw := 90, Roll := 0 } }
    rand := 7 }

/-- A hit on an actor named "Dummy". -/
def sampleHit : FHitResult :=
  { Actor := some { Name := "Dummy" } }

/-- A level whose actor 0 is the sample character, whose actor 1 is a freshly
constructed character, and whose other actors are static meshes. -/
def sampleLevel : Level :=
  { Actors := fun id =>
      if id = 0 then AActor.PunchKick01Character sampleCharacter
      else if id = 1 then
        AActor.PunchKick01Character
          (APunchKick01Character.construct (some { AssetPath := "MeleeFistAttackMontage" })
            (some { AssetPath := "punch_01_Cue" }))
      else AActor.Other "AStaticMeshActor" }

/-- The mesh of actor 0. -/
def sampleMesh : Option USkeletalMeshComponent :=
  some { Owner := some 0 }

/-- A level whose actor 0 is a freshly constructed character. -/
def startLevel : Level :=
  { Actors := fun id =>
      if id = 0 then
        AActor.PunchKick01Character
          (APunchKick01Character.construct (some { AssetPath := "MeleeFistAttackMontage" })
            (some { AssetPath := "punch_01_Cue" }))
      else AActor.Other "AStaticMeshActor" }

/-- A run of actor 0 with one complete notify window: play begins, Attack is
pressed, the window opens, a hit lands, the window closes, the character turns
and moves, and a notify arrives for the mesh of another actor. -/
def sampleEvents : List Event :=
  [ { env := sampleEnvironment, callback := Callback.BeginPlay 0 },
    { env := sampleEnvironment,
      callback := Callback.Input 0 (InputEvent.Action "Attack" EInputEvent.IE_Pressed) },
    { env := sampleEnvironment, callback := Callback.NotifyBegin sampleMesh 1 },
    { env := sampleEnvironment, callback := Callback.OnComponentHit 0 sampleHit },
    { env := sampleEnvironment, callback := Callback.NotifyEnd sampleMesh },
    { env := sampleEnvironment, callback := Callback.Input 0 (InputEvent.Axis "TurnRate" 1) },
    { env := sampleEnvironment, callback := Callback.Input 0 (InputEvent.Axis "MoveForward" 1) },
    { env := sampleEnvironment,
      callback := Callback.NotifyBegin (some { Owner := some 3 }) 1 } ]

/-- A run of actor 0 that is inside its notify window: the window opens, then
Attack is pressed again, the character moves and a hit lands. -/
def sampleOpenEvents : List Event :=
  [ { env := sampleEnvironment, callback := Callback.BeginPlay 0 },
    { env := sampleEnvironment, callback := Callback.NotifyBegin sampleMesh 1 },
    { env := sampleEnvironment,
      callback := Callback.Input 0 (InputEvent.Action "Attack" EInputEvent.IE_Pressed) },
    { env := sampleEnvironment, callback := Callback.Input 0 (InputEvent.Axis "MoveRight" 1) },
    { env := sampleEnvironment,
      callback := Callback.Input 0 (InputEvent.Action "Jump" EInputEvent.IE_Released) },
    { env := sampleEnvironment, callback := Callback.OnComponentHit 0 sampleHit } ]

/-- A run of actor 0 in which Attack is released inside the notify window. -/
def sampleReleaseEvents : List Event :=
  [ { env := sampleEnvironment, callback := Callback.NotifyBegin sampleMesh 1 },
    { env := sampleEnvironment,
      callback := Callback.Input 0 (InputEvent.Action "Attack" EInputEvent.IE_Released) } ]

/-! ## Logging -/

/-- C8: for every level, message and output selector, `Log` writes exactly one
overlay message when the selector is ALL or SCREEN and the engine object is
available, and none otherwise; it writes exactly one log entry when the
selector is ALL or OUTPUT_LOG, and none otherwise, whatever the engine
object; it makes no other call; every call carries the message unchanged; and
the two-argument `Log` is the three-argument one at ALL. -/
theorem C8_log_outputs (GEngine : Option UEngine) (LogLevel : ELogLevel) (Message : String)
    (LogOutput : ELogOutput) :
    ((Log GEngine LogLevel Message LogOutput).filter EngineCall.isOnScreen).length
        = (if (LogOutput = ELogOutput.ALL ∨ LogOutput = ELogOutput.SCREEN) ∧ GEngine.isSome
            then 1 else 0)
      ∧ ((Log GEngine LogLevel Message LogOutput).filter EngineCall.isLogEntry).length
        = (if LogOutput = ELogOutput.ALL ∨ LogOutput = ELogOutput.OUTPUT_LOG then 1 else 0)
      ∧ (∀ call ∈ Log GEngine LogLevel Message LogOutput,
          (call.isOnScreen = true ∨ call.isLogEntry = true) ∧ call.text = some Message)
      ∧ Log2 GEngine LogLevel Message = Log GEngine LogLevel Message ELogOutput.ALL
      ∧ (Log2 (some UEngine.mk) LogLevel Message).map EngineCall.text
          = [some Message, some Message] := by
  refine ⟨?_, ?_, ?_, rfl, ?_⟩
  · unfold Log
    split <;> split <;> simp [EngineCall.isOnScreen]
  · unfold Log
    split <;> split <;> simp [EngineCall.isLogEntry]
  · intro call hcall
    unfold Log at hcall
    split at hcall <;> split at hcall <;>
      simp at hcall <;>
      rcases hcall with rfl | rfl <;>
      simp [EngineCall.isOnScreen, EngineCall.isLogEntry, EngineCall.text]
  · simp [Log2, Log, EngineCall.text]

/-- C10: the colour and the log severity of each of the five levels are the
ones of the table; distinct levels get distinct colours and distinct
severities; and whatever the message, the output selector and the engine
object, every overlay message `Log` writes has the colour of its level and
every log entry the severity of its level. -/
theorem C10_severity_table :
    (∀ LogLevel : ELogLevel, (LogLevel, LogColor LogLevel, LogVerbosity LogLevel) ∈ SeverityTable)
      ∧ SeverityTable.map (fun row => row.1)
          = [ELogLevel.TRACE, ELogLevel.DEBUG, ELogLevel.INFO, ELogLevel.WARNING, ELogLevel.ERROR]
      ∧ Function.Injective LogColor
      ∧ Function.Injective LogVerbosity
      ∧ (∀ (GEngine : Option UEngine) (LogLevel : ELogLevel) (Message : String)
          (LogOutput : ELogOutput), ∀ call ∈ Log GEngine LogLevel Message LogOutput,
            call = EngineCall.AddOnScreenDebugMessage (-1) (9 / 2) (LogColor LogLevel) Message
              ∨ call = EngineCall.UE_LOG (LogVerbosity LogLevel) Message) := by
  refine ⟨?_, rfl, ?_, ?_, ?_⟩
  · intro LogLevel
    cases LogLevel <;> decide
  · intro a b h
    cases a <;> cases b <;> first | rfl | (exact absurd h (by decide))
  · intro a b h
    cases a <;> cases b <;> first | rfl | (exact absurd h (by decide))
  · intro GEngine LogLevel Message LogOutput call hcall
    unfold Log at hcall
    split at hcall <;> split at hcall <;> simp at hcall <;>
      rcases hcall with rfl | rfl <;> simp

/-! ## Arming and disarming the fists -/

theorem AttackStart_ok (env : Environment) (this : APunchKick01Character)
    (left right : UBoxComponent) (hl : this.LeftFistCollisionBox = some left)
    (hr : this.RightFistCollisionBox = some right) :
    AttackStart env this
      = Except.ok
          ({ this with
              LeftFistCollisionBox :=
                some ((left.SetCollisionProfileName "Weapon").SetNotifyRigidBodyCollision true)
              RightFistCollisionBox :=
                some ((right.SetCollisionProfileName "Weapon").SetNotifyRigidBodyCollision true) },
            Log2 env.GEngine ELogLevel.INFO "APunchKick01Character::AttackStart") := by
  simp only [AttackStart, hl, hr]

theorem AttackEnd_ok (env : Environment) (this : APunchKick01Character)
    (left right : UBoxComponent) (hl : this.LeftFistCollisionBox = some left)
    (hr : this.RightFistCollisionBox = some right) :
    AttackEnd env this
      = Except.ok
          ({ this with
              LeftFistCollisionBox :=
                some ((left.SetCollisionProfileName "NoCollision").SetNotifyRigidBodyCollision
                  false)
              RightFistCollisionBox :=
                some ((right.SetCollisionProfileName "NoCollision").SetNotifyRigidBodyCollision
                  false) },
            Log2 env.GEngine ELogLevel.INFO "APunchKick01Character::AttackEnd") := by
  simp only [AttackEnd, hl, hr]

theorem AttackStart_armed (env : Environment) (this this1 : APunchKick01Character)
    (calls : List EngineCall) (h : AttackStart env this = Except.ok (this1, calls)) :
    fistsArmed this1 := by
  unfold AttackStart at h
  split at h
  · cases h
  · split at h
    · cases h
    · cases h
      simp [fistsArmed, boxReports, UBoxComponent.SetCollisionProfileName,
        UBoxComponent.SetNotifyRigidBodyCollision]

theorem AttackEnd_disarmed (env : Environment) (this this1 : APunchKick01Character)
    (calls : List EngineCall) (h : AttackEnd env this = Except.ok (this1, calls)) :
    fistsDisarmed this1 := by
  unfold AttackEnd at h
  split at h
  · cases h
  · split at h
    · cases h
    · cases h
      simp [fistsDisarmed, boxReports, UBoxComponent.SetCollisionProfileName,
        UBoxComponent.SetNotifyRigidBodyCollision]

/-- C1: for every character state in which the two fist volumes exist,
whatever their profile and flag before the call, `AttackStart` returns with
both fist volumes at profile "Weapon" and hit notification enabled, and
`AttackEnd` returns with both at profile "NoCollision" and hit notification
disabled. -/
theorem C1_attack_start_end (env : Environment) (this : APunchKick01Character)
    (left right : UBoxComponent) (hl : this.LeftFistCollisionBox = some left)
    (hr : this.RightFistCollisionBox = some right) :
    (∃ this1 calls, AttackStart env this = Except.ok (this1, calls) ∧ fistsArmed this1)
      ∧ (∃ this1 calls, AttackEnd env this = Except.ok (this1, calls) ∧ fistsDisarmed this1) :=
  ⟨⟨_, _, AttackStart_ok env this left right hl hr,
      AttackStart_armed env this _ _ (AttackStart_ok env this left right hl hr)⟩,
    ⟨_, _, AttackEnd_ok env this left right hl hr,
      AttackEnd_disarmed env this _ _ (AttackEnd_ok env this left right hl hr)⟩⟩

theorem C1_witness :
    (¬ fistsArmed sampleCharacter ∧ ¬ fistsDisarmed sampleCharacter)
      ∧ (∃ this1 calls,
          AttackStart sampleEnvironment sampleCharacter = Except.ok (this1, calls)
            ∧ fistsArmed this1)
      ∧ (∃ this1 calls,
          AttackEnd sampleEnvironment sampleCharacter = Except.ok (this1, calls)
            ∧ fistsDisarmed this1) :=
  ⟨by decide, C1_attack_start_end sampleEnvironment sampleCharacter _ _ rfl rfl⟩


/-! ## Montage section of an attack -/

theorem MontageSection_even (r : Nat) (h : r % 2 = 0) : MontageSection r = "start_1" := by
  simp only [MontageSection, h]
  rfl

theorem MontageSection_odd (r : Nat) (h : r % 2 = 1) : MontageSection r = "start_2" := by
  simp only [MontageSection, h]
  rfl

theorem MontageSection_eq_start_1 (r : Nat) : MontageSection r = "start_1" ↔ r % 2 = 0 := by
  constructor
  · intro h
    rcases Nat.mod_two_eq_zero_or_one r with h0 | h1
    · exact h0
    · rw [MontageSection_odd r h1] at h
      exact absurd h (by decide)
  · exact MontageSection_even r

theorem MontageSection_eq_start_2 (r : Nat) : MontageSection r = "start_2" ↔ r % 2 = 1 := by
  constructor
  · intro h
    rcases Nat.mod_two_eq_zero_or_one r with h0 | h1
    · rw [MontageSection_even r h0] at h
      exact absurd h (by decide)
    · exact h1
  · exact MontageSection_odd r

theorem count_even_below (k : Nat) :
    ((List.range (2 * k)).filter (fun r => decide (r % 2 = 0))).length = k := by
  induction k with
  | zero => rfl
  | succ k ih =>
    have h2 : 2 * (k + 1) = 2 * k + 1 + 1 := by ring
    rw [h2, List.range_succ, List.range_succ]
    simp only [List.filter_append, List.length_append, ih, List.append_assoc]
    have e1 : (2 * k) % 2 = 0 := by omega
    have e2 : (2 * k + 1) % 2 = 1 := by omega
    simp [List.filter, e1, e2]

theorem count_odd_below (k : Nat) :
    ((List.range (2 * k)).filter (fun r => decide (r % 2 = 1))).length = k := by
  induction k with
  | zero => rfl
  | succ k ih =>
    have h2 : 2 * (k + 1) = 2 * k + 1 + 1 := by ring
    rw [h2, List.range_succ, List.range_succ]
    simp only [List.filter_append, List.length_append, ih, List.append_assoc]
    have e1 : (2 * k) % 2 = 0 := by omega
    have e2 : (2 * k + 1) % 2 = 1 := by omega
    simp [List.filter, e1, e2]

/-- C3: whatever value `rand()` returns (in `0 .. RAND_MAX` or not), `AttackInput` returns and plays the
attack montage exactly once, at rate 1, at section "start_1" when the value is
even and at "start_2" when it is odd; and when `RAND_MAX` is odd, exactly
`(RAND_MAX + 1) / 2` of the values `0 .. RAND_MAX` select each of the two
names. -/
theorem C3_attack_section (env : Environment) (this : APunchKick01Character) (RAND_MAX : Nat)
    (hodd : RAND_MAX % 2 = 1) :
    (∃ calls, AttackInput env this = Except.ok (this, calls)
        ∧ calls.filter EngineCall.isMontage
          = [EngineCall.PlayAnimMontage this.MeleeFistAttackMontage 1
              (if env.rand % 2 = 0 then "start_1" else "start_2")])
      ∧ ((List.range (RAND_MAX + 1)).filter
          (fun r => decide (MontageSection r = "start_1"))).length = (RAND_MAX + 1) / 2
      ∧ ((List.range (RAND_MAX + 1)).filter
          (fun r => decide (MontageSection r = "start_2"))).length = (RAND_MAX + 1) / 2 := by
  have hk : RAND_MAX + 1 = 2 * ((RAND_MAX + 1) / 2) := by omega
  refine ⟨⟨_, rfl, ?_⟩, ?_, ?_⟩
  · have hlog : ∀ name : String,
        (Log2 env.GEngine ELogLevel.INFO name).filter EngineCall.isMontage = [] := by
      intro name
      unfold Log2 Log
      split <;> simp [EngineCall.isMontage]
    rw [List.filter_append, hlog]
    rcases Nat.mod_two_eq_zero_or_one env.rand with h0 | h1
    · simp [EngineCall.isMontage, MontageSection_even _ h0, h0]
    · simp [EngineCall.isMontage, MontageSection_odd _ h1, h1]
  · have hfun : (fun r => decide (MontageSection r = "start_1"))
        = (fun r => decide (r % 2 = 0)) := by
      funext r
      simp only [MontageSection_eq_start_1]
    rw [hfun]
    conv_lhs => rw [hk]
    exact count_even_below _
  · have hfun : (fun r => decide (MontageSection r = "start_2"))
        = (fun r => decide (r % 2 = 1)) := by
      funext r
      simp only [MontageSection_eq_start_2]
    rw [hfun]
    conv_lhs => rw [hk]
    exact count_odd_below _

theorem C3_witness :
    (∃ calls, AttackInput sampleEnvironment sampleCharacter
          = Except.ok (sampleCharacter, calls)
        ∧ calls.filter EngineCall.isMontage
          = [EngineCall.PlayAnimMontage sampleCharacter.MeleeFistAttackMontage 1
              (if sampleEnvironment.rand % 2 = 0 then "start_1" else "start_2")])
      ∧ ((List.range (32767 + 1)).filter
          (fun r => decide (MontageSection r = "start_1"))).length = (32767 + 1) / 2
      ∧ ((List.range (32767 + 1)).filter
          (fun r => decide (MontageSection r = "start_2"))).length = (32767 + 1) / 2 :=
  C3_attack_section sampleEnvironment sampleCharacter 32767 (by decide)

/-! ## Sound on a hit -/

theorem Log_no_playback (GEngine : Option UEngine) (LogLevel : ELogLevel) (Message : String)
    (LogOutput : ELogOutput) :
    (Log GEngine LogLevel Message LogOutput).filter EngineCall.isPlayback = [] := by
  unfold Log
  split <;> split <;> simp [EngineCall.isPlayback]

theorem OnAttackHit_ok (env : Environment) (this : APunchKick01Character) (Hit : FHitResult)
    (actor : AHitActor) (hactor : Hit.Actor = some actor) :
    ∃ calls, OnAttackHit env this Hit = Except.ok (this, calls)
      ∧ calls.filter EngineCall.isPlayback
        = (if this.PunchAudioComponent.isSome ∧ this.PunchSoundCue.isSome then
            [EngineCall.AudioPlay 0] else []) := by
  unfold OnAttackHit
  rw [hactor]
  by_cases hboth : this.PunchAudioComponent.isSome ∧ this.PunchSoundCue.isSome
  · refine ⟨_, if_pos hboth, ?_⟩
    rw [List.filter_append, Log2, Log_no_playback, if_pos hboth]
    rfl
  · refine ⟨_, if_neg hboth, ?_⟩
    rw [Log2, Log_no_playback, if_neg hboth]

theorem run_hits (who : ActorId) (this : APunchKick01Character)
    (hits : List (Environment × FHitResult))
    (hactors : ∀ hit ∈ hits, hit.2.Actor.isSome) (level : Level)
    (hwho : level.Actors who = AActor.PunchKick01Character this) :
    ∃ level1 calls,
      run level (hits.map (fun hit => Event.mk hit.1 (Callback.OnComponentHit who hit.2)))
          = Except.ok (level1, calls)
        ∧ level1.Actors who = AActor.PunchKick01Character this
        ∧ calls.filter EngineCall.isPlayback
          = List.replicate
              (if this.PunchAudioComponent.isSome ∧ this.PunchSoundCue.isSome then hits.length
                else 0)
              (EngineCall.AudioPlay 0) := by
  induction hits generalizing level with
  | nil =>
    refine ⟨level, [], rfl, hwho, ?_⟩
    simp
  | cons hit rest ih =>
    have hsome : hit.2.Actor.isSome := hactors hit (List.mem_cons_self _ _)
    obtain ⟨actor, hactor⟩ := Option.isSome_iff_exists.mp hsome
    obtain ⟨calls1, hcall, hplay⟩ := OnAttackHit_ok hit.1 this hit.2 actor hactor
    have hwrite : (level.write who this).Actors who = AActor.PunchKick01Character this := by
      simp [Level.write]
    obtain ⟨level2, calls2, hrun, hwho2, hplay2⟩ :=
      ih (fun h hmem => hactors h (List.mem_cons_of_mem _ hmem)) (level.write who this) hwrite
    refine ⟨level2, calls1 ++ calls2, ?_, hwho2, ?_⟩
    · simp only [List.map_cons, run, step, onCharacter, hwho, Cast, hcall, hrun]
    · rw [List.filter_append, hplay, hplay2]
      by_cases hboth : this.PunchAudioComponent.isSome ∧ this.PunchSoundCue.isSome
      · simp only [if_pos hboth, List.length_cons]
        rfl
      · simp only [if_neg hboth, List.replicate_zero, List.append_nil]

/-- C4: on a hit that has an actor, `OnAttackHit` returns, leaves the character
as it was, and issues exactly one playback call, at start time 0, when the
audio component and the sound asset are both present, and none when either is
absent; and a sequence of `n` such hits on a character with both present,
from any state of the level, runs to its end and issues exactly `n` playback
calls, each at start time 0. -/
theorem C4_hit_sound (env : Environment) (this : APunchKick01Character) (Hit : FHitResult)
    (actor : AHitActor) (hactor : Hit.Actor = some actor)
    (level : Level) (who : ActorId) (hits : List (Environment × FHitResult))
    (hwho : level.Actors who = AActor.PunchKick01Character this)
    (hactors : ∀ hit ∈ hits, hit.2.Actor.isSome) :
    (∃ calls, OnAttackHit env this Hit = Except.ok (this, calls)
        ∧ calls.filter EngineCall.isPlayback
          = (if this.PunchAudioComponent.isSome ∧ this.PunchSoundCue.isSome then
              [EngineCall.AudioPlay 0] else []))
      ∧ (this.PunchAudioComponent.isSome ∧ this.PunchSoundCue.isSome →
          ∃ level1 calls,
            run level (hits.map (fun hit => Event.mk hit.1 (Callback.OnComponentHit who hit.2)))
                = Except.ok (level1, calls)
              ∧ calls.filter EngineCall.isPlayback
                = List.replicate hits.length (EngineCall.AudioPlay 0)) := by
  refine ⟨OnAttackHit_ok env this Hit actor hactor, ?_⟩
  intro hboth
  obtain ⟨level1, calls, hrun, _, hplay⟩ := run_hits who this hits hactors level hwho
  rw [if_pos hboth] at hplay
  exact ⟨level1, calls, hrun, hplay⟩

theorem C4_witness :
    (∃ calls, OnAttackHit sampleEnvironment sampleCharacter sampleHit
          = Except.ok (sampleCharacter, calls)
        ∧ calls.filter EngineCall.isPlayback
          = (if sampleCharacter.PunchAudioComponent.isSome ∧ sampleCharacter.PunchSoundCue.isSome
              then [EngineCall.AudioPlay 0] else []))
      ∧ (sampleCharacter.PunchAudioComponent.isSome ∧ sampleCharacter.PunchSoundCue.isSome →
          ∃ level1 calls,
            run sampleLevel
                ([(sampleEnvironment, sampleHit), (sampleEnvironment, sampleHit),
                    (sampleEnvironment, sampleHit)].map
                  (fun hit => Event.mk hit.1 (Callback.OnComponentHit 0 hit.2)))
                = Except.ok (level1, calls)
              ∧ calls.filter EngineCall.isPlayback
                = List.replicate
                    [(sampleEnvironment, sampleHit), (sampleEnvironment, sampleHit),
                      (sampleEnvironment, sampleHit)].length
                    (EngineCall.AudioPlay 0)) :=
  C4_hit_sound sampleEnvironment sampleCharacter sampleHit { Name := "Dummy" } rfl sampleLevel 0
    [(sampleEnvironment, sampleHit), (sampleEnvironment, sampleHit),
      (sampleEnvironment, sampleHit)]
    rfl (by simp [sampleHit])

/-! ## Movement and look input -/

/-- C9, as stated, fails: on a constructed character (both rates 45), in a frame
of 1/60 s, `MoveForward(1)` and `MoveRight(1)` pass the scale 1 to the engine,
which is not 1 scaled by a rate and the frame time. -/
theorem C9_counterexample :
    MoveForward sampleEnvironment (APunchKick01Character.construct none none) 1
        = Except.ok (APunchKick01Character.construct none none,
            [EngineCall.AddMovementInput
              (FVector.UnitAxis { Pitch := 0, Yaw := 90, Roll := 0 } EAxis.X) 1])
      ∧ MoveRight sampleEnvironment (APunchKick01Character.construct none none) 1
        = Except.ok (APunchKick01Character.construct none none,
            [EngineCall.AddMovementInput
              (FVector.UnitAxis { Pitch := 0, Yaw := 90, Roll := 0 } EAxis.Y) 1])
      ∧ sampleEnvironment.World = some { DeltaSeconds := 1 / 60 }
      ∧ (1 : Rat) ≠ 1 * (APunchKick01Character.construct none none).BaseTurnRate * (1 / 60)
      ∧ (1 : Rat) ≠ 1 * (APunchKick01Character.construct none none).BaseLookUpRate * (1 / 60) := by
  refine ⟨?_, ?_, rfl, ?_, ?_⟩
  · simp [MoveForward, sampleEnvironment]
  · simp [MoveRight, sampleEnvironment]
  · simp only [APunchKick01Character.construct]
    norm_num
  · simp only [APunchKick01Character.construct]
    norm_num

/-- C9, amended: with the world present, `TurnAtRate(v)` adds the yaw
`v * BaseTurnRate * dt` and `LookUpAtRate(v)` adds the pitch
`v * BaseLookUpRate * dt`, over exact rationals, and both rates are 45 after
construction; `MoveForward(v)` and `MoveRight(v)` add movement along the
yaw-forward and the yaw-right axis with the scale `v` itself, when a
controller is present and `v` is not 0, and make no call otherwise. -/
theorem C9_input_scaling (env : Environment) (this : APunchKick01Character) (v : Rat)
    (world : UWorld) (hworld : env.World = some world) :
    TurnAtRate env this v
        = Except.ok (this,
            [EngineCall.AddControllerYawInput (v * this.BaseTurnRate * world.DeltaSeconds)])
      ∧ LookUpAtRate env this v
        = Except.ok (this,
            [EngineCall.AddControllerPitchInput (v * this.BaseLookUpRate * world.DeltaSeconds)])
      ∧ (∀ montage cue,
          (APunchKick01Character.construct montage cue).BaseTurnRate = 45
            ∧ (APunchKick01Character.construct montage cue).BaseLookUpRate = 45)
      ∧ (∀ controller, env.Controller = some controller → v ≠ 0 →
          MoveForward env this v
              = Except.ok (this,
                  [EngineCall.AddMovementInput
                    (FVector.UnitAxis
                      { Pitch := 0, Yaw := controller.ControlRotation.Yaw, Roll := 0 } EAxis.X)
                    v])
            ∧ MoveRight env this v
              = Except.ok (this,
                  [EngineCall.AddMovementInput
                    (FVector.UnitAxis
                      { Pitch := 0, Yaw := controller.ControlRotation.Yaw, Roll := 0 } EAxis.Y)
                    v]))
      ∧ (env.Controller = none ∨ v = 0 →
          MoveForward env this v = Except.ok (this, [])
            ∧ MoveRight env this v = Except.ok (this, [])) := by
  refine ⟨?_, ?_, ?_, ?_, ?_⟩
  · simp only [TurnAtRate, hworld, AddControllerYawInput]
  · simp only [LookUpAtRate, hworld, AddControllerPitchInput]
  · intro montage cue
    exact ⟨rfl, rfl⟩
  · intro controller hcontroller hv
    simp [MoveForward, MoveRight, hcontroller, hv]
  · intro hnone
    rcases hnone with hnone | hzero
    · simp [MoveForward, MoveRight, hnone]
    · subst hzero
      cases hc : env.Controller <;> simp [MoveForward, MoveRight, hc]

theorem C9_witness :
    TurnAtRate sampleEnvironment sampleCharacter 2
        = Except.ok (sampleCharacter,
            [EngineCall.AddControllerYawInput (2 * sampleCharacter.BaseTurnRate * (1 / 60))])
      ∧ MoveForward sampleEnvironment sampleCharacter 2
        = Except.ok (sampleCharacter,
            [EngineCall.AddMovementInput
              (FVector.UnitAxis { Pitch := 0, Yaw := 90, Roll := 0 } EAxis.X) 2]) :=
  ⟨(C9_input_scaling sampleEnvironment sampleCharacter 2 { DeltaSeconds := 1 / 60 } rfl).1,
    ((C9_input_scaling sampleEnvironment sampleCharacter 2 { DeltaSeconds := 1 / 60 } rfl).2.2.2.1
      { ControlRotation := { Pitch := 10, Yaw := 90, Roll := 0 } } rfl (by norm_num)).1⟩

/-! ## Dispatch of the animation notify -/

theorem Cast_eq_some (actor : AActor) (character : APunchKick01Character) :
    Cast actor = some character ↔ actor = AActor.PunchKick01Character character := by
  cases actor <;> simp [Cast]

theorem NotifyBegin_unresolved (env : Environment) (level : Level)
    (MeshComp : Option USkeletalMeshComponent) (TotalDuration : Rat) (engine : UEngine)
    (hengine : env.GEngine = some engine) (hnone : resolvedCharacter level MeshComp = none) :
    NotifyBegin env level MeshComp TotalDuration = Except.ok (level, [shownNotifyBegin]) := by
  unfold resolvedCharacter at hnone
  cases MeshComp with
  | none => simp only [NotifyBegin, hengine, shownNotifyBegin]
  | some mesh =>
    cases hown : mesh.Owner with
    | none => simp only [NotifyBegin, hengine, hown, shownNotifyBegin]
    | some owner =>
      simp only [hown] at hnone
      cases hactor : level.Actors owner with
      | PunchKick01Character character => simp [hactor] at hnone
      | Other name => simp only [NotifyBegin, hengine, hown, hactor, Cast, shownNotifyBegin]

theorem NotifyEnd_unresolved (env : Environment) (level : Level)
    (MeshComp : Option USkeletalMeshComponent) (engine : UEngine)
    (hengine : env.GEngine = some engine) (hnone : resolvedCharacter level MeshComp = none) :
    NotifyEnd env level MeshComp = Except.ok (level, [shownNotifyEnd]) := by
  unfold resolvedCharacter at hnone
  cases MeshComp with
  | none => simp only [NotifyEnd, hengine, shownNotifyEnd]
  | some mesh =>
    cases hown : mesh.Owner with
    | none => simp only [NotifyEnd, hengine, hown, shownNotifyEnd]
    | some owner =>
      simp only [hown] at hnone
      cases hactor : level.Actors owner with
      | PunchKick01Character character => simp [hactor] at hnone
      | Other name => simp only [NotifyEnd, hengine, hown, hactor, Cast, shownNotifyEnd]

theorem resolvedCharacter_some (level : Level) (MeshComp : Option USkeletalMeshComponent)
    (owner : ActorId) (Player : APunchKick01Character)
    (hsome : resolvedCharacter level MeshComp = some (owner, Player)) :
    ∃ mesh, MeshComp = some mesh ∧ mesh.Owner = some owner
      ∧ level.Actors owner = AActor.PunchKick01Character Player := by
  unfold resolvedCharacter at hsome
  cases MeshComp with
  | none => simp at hsome
  | some mesh =>
    cases hown : mesh.Owner with
    | none => simp [hown] at hsome
    | some owner1 =>
      simp only [hown] at hsome
      cases hactor : level.Actors owner1 with
      | PunchKick01Character character =>
        simp only [hactor, Option.some.injEq, Prod.mk.injEq] at hsome
        obtain ⟨h1, h2⟩ := hsome
        subst h1
        subst h2
        exact ⟨mesh, rfl, hown, hactor⟩
      | Other name => simp [hactor] at hsome

theorem NotifyBegin_resolved (env : Environment) (level : Level)
    (MeshComp : Option USkeletalMeshComponent) (TotalDuration : Rat) (engine : UEngine)
    (hengine : env.GEngine = some engine) (owner : ActorId) (Player : APunchKick01Character)
    (hsome : resolvedCharacter level MeshComp = some (owner, Player)) :
    NotifyBegin env level MeshComp TotalDuration
      = (match AttackStart env Player with
        | Except.error fault => Except.error fault
        | Except.ok (Player1, calls) =>
          Except.ok (level.write owner Player1, shownNotifyBegin :: calls)) := by
  obtain ⟨mesh, hmesh, hown, hactor⟩ := resolvedCharacter_some level MeshComp owner Player hsome
  subst hmesh
  simp only [NotifyBegin, hengine, hown, hactor, Cast, shownNotifyBegin, List.singleton_append]

theorem NotifyEnd_resolved (env : Environment) (level : Level)
    (MeshComp : Option USkeletalMeshComponent) (engine : UEngine)
    (hengine : env.GEngine = some engine) (owner : ActorId) (Player : APunchKick01Character)
    (hsome : resolvedCharacter level MeshComp = some (owner, Player)) :
    NotifyEnd env level MeshComp
      = (match AttackEnd env Player with
        | Except.error fault => Except.error fault
        | Except.ok (Player1, calls) =>
          Except.ok (level.write owner Player1, shownNotifyEnd :: calls)) := by
  obtain ⟨mesh, hmesh, hown, hactor⟩ := resolvedCharacter_some level MeshComp owner Player hsome
  subst hmesh
  simp only [NotifyEnd, hengine, hown, hactor, Cast, shownNotifyEnd, List.singleton_append]

theorem invocations_Log2 (GEngine : Option UEngine) (handler name : String) :
    invocations handler (Log2 GEngine ELogLevel.INFO name) = if name = handler then 1 else 0 := by
  unfold invocations Log2 Log
  by_cases h : name = handler
  · subst h
    split <;> simp [LogVerbosity]
  · have h1 : ¬ handler = name := fun e => h e.symm
    split <;> simp [LogVerbosity, h, h1, List.filter]

/-- With the engine object available, for every mesh argument: when the
mesh is present, has an owner, and the owner is a `APunchKick01Character`,
`NotifyBegin` is its overlay message followed by one run of `AttackStart`
on that character (one invocation of `AttackStart`, none of `AttackEnd`;
with the fist volumes present it returns, the owner is armed and every other
actor is as before); otherwise `NotifyBegin` returns, makes no call but its
overlay message, and leaves the level as it was. The same holds for
`NotifyEnd` with `AttackEnd`. -/
theorem notify_dispatch_engine_available (env : Environment) (level : Level)
    (MeshComp : Option USkeletalMeshComponent) (TotalDuration : Rat) (engine : UEngine)
    (hengine : env.GEngine = some engine) :
    (resolvedCharacter level MeshComp = none →
        NotifyBegin env level MeshComp TotalDuration = Except.ok (level, [shownNotifyBegin])
          ∧ NotifyEnd env level MeshComp = Except.ok (level, [shownNotifyEnd])
          ∧ invocations "APunchKick01Character::AttackStart" [shownNotifyBegin] = 0
          ∧ invocations "APunchKick01Character::AttackEnd" [shownNotifyEnd] = 0)
      ∧ (∀ owner Player, resolvedCharacter level MeshComp = some (owner, Player) →
          NotifyBegin env level MeshComp TotalDuration
              = (match AttackStart env Player with
                | Except.error fault => Except.error fault
                | Except.ok (Player1, calls) =>
                  Except.ok (level.write owner Player1, shownNotifyBegin :: calls))
            ∧ NotifyEnd env level MeshComp
              = (match AttackEnd env Player with
                | Except.error fault => Except.error fault
                | Except.ok (Player1, calls) =>
                  Except.ok (level.write owner Player1, shownNotifyEnd :: calls)))
      ∧ (∀ owner Player, resolvedCharacter level MeshComp = some (owner, Player) →
          Player.LeftFistCollisionBox.isSome → Player.RightFistCollisionBox.isSome →
          (∃ level1 calls Player1,
            NotifyBegin env level MeshComp TotalDuration = Except.ok (level1, calls)
              ∧ invocations "APunchKick01Character::AttackStart" calls = 1
              ∧ invocations "APunchKick01Character::AttackEnd" calls = 0
              ∧ level1.Actors owner = AActor.PunchKick01Character Player1
              ∧ fistsArmed Player1
              ∧ ∀ other, other ≠ owner → level1.Actors other = level.Actors other)
            ∧ (∃ level1 calls Player1,
              NotifyEnd env level MeshComp = Except.ok (level1, calls)
                ∧ invocations "APunchKick01Character::AttackEnd" calls = 1
                ∧ invocations "APunchKick01Character::AttackStart" calls = 0
                ∧ level1.Actors owner = AActor.PunchKick01Character Player1
                ∧ fistsDisarmed Player1
                ∧ ∀ other, other ≠ owner → level1.Actors other = level.Actors other)) := by
  refine ⟨?_, ?_, ?_⟩
  · intro hnone
    exact ⟨NotifyBegin_unresolved env level MeshComp TotalDuration engine hengine hnone,
      NotifyEnd_unresolved env level MeshComp engine hengine hnone, by decide, by decide⟩
  · intro owner Player hsome
    exact ⟨NotifyBegin_resolved env level MeshComp TotalDuration engine hengine owner Player hsome,
      NotifyEnd_resolved env level MeshComp engine hengine owner Player hsome⟩
  · intro owner Player hsome hleft hright
    obtain ⟨left, hl⟩ := Option.isSome_iff_exists.mp hleft
    obtain ⟨right, hr⟩ := Option.isSome_iff_exists.mp hright
    have hstart := AttackStart_ok env Player left right hl hr
    have hend := AttackEnd_ok env Player left right hl hr
    have hcount : ∀ handler name : String,
        invocations handler
            (EngineCall.AddOnScreenDebugMessage (-1) (9 / 2) FColor.Magenta
              "UAttackStartNotifyState::NotifyBegin" :: Log2 env.GEngine ELogLevel.INFO name)
          = (if name = handler then 1 else 0)
        ∧ invocations handler
            (EngineCall.AddOnScreenDebugMessage (-1) (9 / 2) FColor.Magenta
              "UAttackStartNotifyState::NotifyEnd" :: Log2 env.GEngine ELogLevel.INFO name)
          = (if name = handler then 1 else 0) := by
      intro handler name
      have h := invocations_Log2 env.GEngine handler name
      simp only [invocations] at h ⊢
      constructor <;> simpa [List.filter] using h
    constructor
    · rw [NotifyBegin_resolved env level MeshComp TotalDuration engine hengine owner Player
        hsome, hstart]
      refine ⟨_, _, _, rfl, ?_, ?_, ?_, AttackStart_armed env Player _ _ hstart, ?_⟩
      · exact (hcount _ _).1
      · exact (hcount _ _).1
      · simp [Level.write]
      · intro other hother
        simp [Level.write, hother]
    · rw [NotifyEnd_resolved env level MeshComp engine hengine owner Player hsome, hend]
      refine ⟨_, _, _, rfl, ?_, ?_, ?_, AttackEnd_disarmed env Player _ _ hend, ?_⟩
      · exact (hcount _ _).2
      · exact (hcount _ _).2
      · simp [Level.write]
      · intro other hother
        simp [Level.write, hother]

theorem notify_dispatch_sample :
    (∃ level1 calls Player1,
        NotifyBegin sampleEnvironment sampleLevel (some { Owner := some 0 }) 1
            = Except.ok (level1, calls)
          ∧ invocations "APunchKick01Character::AttackStart" calls = 1
          ∧ invocations "APunchKick01Character::AttackEnd" calls = 0
          ∧ level1.Actors 0 = AActor.PunchKick01Character Player1
          ∧ fistsArmed Player1
          ∧ ∀ other, other ≠ 0 → level1.Actors other = sampleLevel.Actors other)
      ∧ NotifyBegin sampleEnvironment sampleLevel (some { Owner := some 2 }) 1
          = Except.ok (sampleLevel, [shownNotifyBegin])
      ∧ NotifyEnd sampleEnvironment sampleLevel (some { Owner := none })
          = Except.ok (sampleLevel, [shownNotifyEnd])
      ∧ NotifyEnd sampleEnvironment sampleLevel none
          = Except.ok (sampleLevel, [shownNotifyEnd]) :=
  ⟨((notify_dispatch_engine_available sampleEnvironment sampleLevel (some { Owner := some 0 }) 1 UEngine.mk
        rfl).2.2 0 sampleCharacter rfl rfl rfl).1,
    ((notify_dispatch_engine_available sampleEnvironment sampleLevel (some { Owner := some 2 }) 1 UEngine.mk
        rfl).1 rfl).1,
    ((notify_dispatch_engine_available sampleEnvironment sampleLevel (some { Owner := none }) 1 UEngine.mk
        rfl).1 rfl).2.1,
    ((notify_dispatch_engine_available sampleEnvironment sampleLevel none 1 UEngine.mk rfl).1 rfl).2.1⟩

/-- C2: at the failing input, the engine object absent, `NotifyBegin` and
`NotifyEnd` fault on the null `GEngine` before they look at the mesh: for an
absent mesh, for a mesh without owner and for a mesh owned by an actor of
another class, none of which resolves to a character, and for the mesh of a
character as well, so that `AttackStart` and `AttackEnd` are never run. -/
theorem C2_engine_absent_fault :
    resolvedCharacter sampleLevel none = none
      ∧ resolvedCharacter sampleLevel (some { Owner := none }) = none
      ∧ resolvedCharacter sampleLevel (some { Owner := some 2 }) = none
      ∧ resolvedCharacter sampleLevel sampleMesh = some (0, sampleCharacter)
      ∧ NotifyBegin { sampleEnvironment with GEngine := none } sampleLevel none 1
        = Except.error (Fault.nullDereference "GEngine")
      ∧ NotifyBegin { sampleEnvironment with GEngine := none } sampleLevel
          (some { Owner := none }) 1
        = Except.error (Fault.nullDereference "GEngine")
      ∧ NotifyBegin { sampleEnvironment with GEngine := none } sampleLevel
          (some { Owner := some 2 }) 1
        = Except.error (Fault.nullDereference "GEngine")
      ∧ NotifyBegin { sampleEnvironment with GEngine := none } sampleLevel sampleMesh 1
        = Except.error (Fault.nullDereference "GEngine")
      ∧ NotifyEnd { sampleEnvironment with GEngine := none } sampleLevel none
        = Except.error (Fault.nullDereference "GEngine")
      ∧ NotifyEnd { sampleEnvironment with GEngine := none } sampleLevel
          (some { Owner := none })
        = Except.error (Fault.nullDereference "GEngine")
      ∧ NotifyEnd { sampleEnvironment with GEngine := none } sampleLevel
          (some { Owner := some 2 })
        = Except.error (Fault.nullDereference "GEngine")
      ∧ NotifyEnd { sampleEnvironment with GEngine := none } sampleLevel sampleMesh
        = Except.error (Fault.nullDereference "GEngine") :=
  ⟨rfl, rfl, rfl, rfl, rfl, rfl, rfl, rfl, rfl, rfl, rfl, rfl⟩

/-! ## Null checks -/

/-- C7, as stated, fails: with a fist volume absent `AttackStart` and
`AttackEnd` fault, with the world absent `TurnAtRate` and `LookUpAtRate`
fault, on a hit without an actor `OnAttackHit` faults, and with the engine
object absent `NotifyBegin` and `NotifyEnd` fault, each on the null pointer it
dereferences unchecked. -/
theorem C7_counterexample :
    AttackStart sampleEnvironment { sampleCharacter with LeftFistCollisionBox := none }
        = Except.error (Fault.nullDereference "LeftFistCollisionBox")
      ∧ AttackEnd sampleEnvironment { sampleCharacter with RightFistCollisionBox := none }
        = Except.error (Fault.nullDereference "RightFistCollisionBox")
      ∧ TurnAtRate { sampleEnvironment with World := none } sampleCharacter 1
        = Except.error (Fault.nullDereference "GetWorld()")
      ∧ LookUpAtRate { sampleEnvironment with World := none } sampleCharacter 1
        = Except.error (Fault.nullDereference "GetWorld()")
      ∧ OnAttackHit sampleEnvironment sampleCharacter { Actor := none }
        = Except.error (Fault.nullDereference "Hit.GetActor()")
      ∧ (∃ fault,
          NotifyBegin { sampleEnvironment with GEngine := none } sampleLevel none 1
            = Except.error fault)
      ∧ (∃ fault,
          NotifyEnd { sampleEnvironment with GEngine := none } sampleLevel none
            = Except.error fault) :=
  ⟨rfl, rfl, rfl, rfl, rfl, ⟨_, rfl⟩, ⟨_, rfl⟩⟩

/-- C7, amended: the references the handlers check are the mesh, its owner and
the result of the cast in `NotifyBegin` and `NotifyEnd`, the audio component
and the sound asset in `OnAttackHit`, the controller in `MoveForward` and
`MoveRight`, and the engine object in `Log`. With the engine object
available, `NotifyBegin` and `NotifyEnd` on a mesh that is absent, has no
owner or is owned by an actor of another class return without a fault, show
only their overlay message and leave the level as it was; on a hit with an
actor, `OnAttackHit` with the audio component or the sound asset absent
returns without a fault and only logs; with the controller absent
`MoveForward` and `MoveRight` return without a fault and make no call; with
the engine object absent `Log` writes no overlay message. The fist volumes,
the world and the actor of the hit are read unchecked: `AttackStart` and
`AttackEnd` return exactly when both fist volumes are present, `TurnAtRate`
and `LookUpAtRate` exactly when the world is present, and `OnAttackHit`
exactly when the hit has an actor. -/
theorem C7_guarded_references (env : Environment) (level : Level)
    (this : APunchKick01Character) (MeshComp : Option USkeletalMeshComponent)
    (TotalDuration Value : Rat) (Hit : FHitResult) :
    (env.GEngine.isSome → resolvedCharacter level MeshComp = none →
        NotifyBegin env level MeshComp TotalDuration = Except.ok (level, [shownNotifyBegin])
          ∧ NotifyEnd env level MeshComp = Except.ok (level, [shownNotifyEnd]))
      ∧ (∀ actor, Hit.Actor = some actor →
          this.PunchAudioComponent = none ∨ this.PunchSoundCue = none →
          OnAttackHit env this Hit
            = Except.ok (this, Log2 env.GEngine ELogLevel.WARNING actor.Name))
      ∧ (env.Controller = none →
          MoveForward env this Value = Except.ok (this, [])
            ∧ MoveRight env this Value = Except.ok (this, []))
      ∧ (∀ LogLevel Message LogOutput,
          (Log none LogLevel Message LogOutput).filter EngineCall.isOnScreen = [])
      ∧ ((∃ result, AttackStart env this = Except.ok result)
          ↔ this.LeftFistCollisionBox.isSome ∧ this.RightFistCollisionBox.isSome)
      ∧ ((∃ result, AttackEnd env this = Except.ok result)
          ↔ this.LeftFistCollisionBox.isSome ∧ this.RightFistCollisionBox.isSome)
      ∧ ((∃ result, TurnAtRate env this Value = Except.ok result) ↔ env.World.isSome)
      ∧ ((∃ result, LookUpAtRate env this Value = Except.ok result) ↔ env.World.isSome)
      ∧ ((∃ result, OnAttackHit env this Hit = Except.ok result) ↔ Hit.Actor.isSome) := by
  refine ⟨?_, ?_, ?_, ?_, ?_, ?_, ?_, ?_, ?_⟩
  · intro hengine hnone
    obtain ⟨engine, hengine⟩ := Option.isSome_iff_exists.mp hengine
    exact ⟨NotifyBegin_unresolved env level MeshComp TotalDuration engine hengine hnone,
      NotifyEnd_unresolved env level MeshComp engine hengine hnone⟩
  · intro actor hactor habsent
    rcases habsent with h | h <;> simp [OnAttackHit, hactor, h]
  · intro hnone
    simp [MoveForward, MoveRight, hnone]
  · intro LogLevel Message LogOutput
    unfold Log
    split <;> simp_all [EngineCall.isOnScreen]
  · cases hl : this.LeftFistCollisionBox <;> cases hr : this.RightFistCollisionBox <;>
      simp [AttackStart, hl, hr]
  · cases hl : this.LeftFistCollisionBox <;> cases hr : this.RightFistCollisionBox <;>
      simp [AttackEnd, hl, hr]
  · cases hw : env.World <;> simp [TurnAtRate, AddControllerYawInput, hw]
  · cases hw : env.World <;> simp [LookUpAtRate, AddControllerPitchInput, hw]
  · cases ha : Hit.Actor with
    | none => simp [OnAttackHit, ha]
    | some actor =>
      simp only [Option.isSome_some, iff_true]
      obtain ⟨calls, hcalls, _⟩ := OnAttackHit_ok env this Hit actor ha
      exact ⟨_, hcalls⟩

theorem C7_witness :
    NotifyBegin sampleEnvironment sampleLevel (some { Owner := some 5 }) 1
        = Except.ok (sampleLevel, [shownNotifyBegin])
      ∧ OnAttackHit sampleEnvironment { sampleCharacter with PunchSoundCue := none } sampleHit
        = Except.ok ({ sampleCharacter with PunchSoundCue := none },
            Log2 sampleEnvironment.GEngine ELogLevel.WARNING "Dummy")
      ∧ MoveForward { sampleEnvironment with Controller := none } sampleCharacter 1
        = Except.ok (sampleCharacter, []) :=
  ⟨((C7_guarded_references sampleEnvironment sampleLevel sampleCharacter
        (some { Owner := some 5 }) 1 1 sampleHit).1 rfl rfl).1,
    (C7_guarded_references sampleEnvironment sampleLevel
        { sampleCharacter with PunchSoundCue := none } none 1 1 sampleHit).2.1
      { Name := "Dummy" } rfl (Or.inr rfl),
    ((C7_guarded_references { sampleEnvironment with Controller := none } sampleLevel
        sampleCharacter none 1 1 sampleHit).2.2.1 rfl).1⟩

/-! ## The armed window along a run -/

theorem keepsFists_of_same (handler : APunchKick01Character → Outcome)
    (hsame : ∀ this this1 calls, handler this = Except.ok (this1, calls) → this1 = this) :
    KeepsFists handler := by
  intro this this1 calls h
  rw [hsame this this1 calls h]
  exact ⟨id, id⟩

theorem keepsFists_Jump (env : Environment) : KeepsFists (Jump env) :=
  keepsFists_of_same _ (by
    intro this this1 calls h
    simp only [Jump, Except.ok.injEq, Prod.mk.injEq] at h
    exact h.1.symm)

theorem keepsFists_StopJumping (env : Environment) : KeepsFists (StopJumping env) :=
  keepsFists_of_same _ (by
    intro this this1 calls h
    simp only [StopJumping, Except.ok.injEq, Prod.mk.injEq] at h
    exact h.1.symm)

theorem keepsFists_OnResetVR (env : Environment) : KeepsFists (OnResetVR env) :=
  keepsFists_of_same _ (by
    intro this this1 calls h
    simp only [OnResetVR, Except.ok.injEq, Prod.mk.injEq] at h
    exact h.1.symm)

theorem keepsFists_AttackInput (env : Environment) : KeepsFists (AttackInput env) :=
  keepsFists_of_same _ (by
    intro this this1 calls h
    simp only [AttackInput, Except.ok.injEq, Prod.mk.injEq] at h
    exact h.1.symm)

theorem keepsFists_MoveForward (env : Environment) (Value : Rat) :
    KeepsFists (fun this => MoveForward env this Value) :=
  keepsFists_of_same _ (by
    intro this this1 calls h
    simp only [MoveForward] at h
    split at h
    · split at h <;>
      · simp only [Except.ok.injEq, Prod.mk.injEq] at h
        exact h.1.symm
    · simp only [Except.ok.injEq, Prod.mk.injEq] at h
      exact h.1.symm)

theorem keepsFists_MoveRight (env : Environment) (Value : Rat) :
    KeepsFists (fun this => MoveRight env this Value) :=
  keepsFists_of_same _ (by
    intro this this1 calls h
    simp only [MoveRight] at h
    split at h
    · split at h <;>
      · simp only [Except.ok.injEq, Prod.mk.injEq] at h
        exact h.1.symm
    · simp only [Except.ok.injEq, Prod.mk.injEq] at h
      exact h.1.symm)

theorem keepsFists_AddControllerYawInput (env : Environment) (Value : Rat) :
    KeepsFists (fun this => AddControllerYawInput env this Value) :=
  keepsFists_of_same _ (by
    intro this this1 calls h
    simp only [AddControllerYawInput, Except.ok.injEq, Prod.mk.injEq] at h
    exact h.1.symm)

theorem keepsFists_AddControllerPitchInput (env : Environment) (Value : Rat) :
    KeepsFists (fun this => AddControllerPitchInput env this Value) :=
  keepsFists_of_same _ (by
    intro this this1 calls h
    simp only [AddControllerPitchInput, Except.ok.injEq, Prod.mk.injEq] at h
    exact h.1.symm)

theorem keepsFists_TurnAtRate (env : Environment) (Value : Rat) :
    KeepsFists (fun this => TurnAtRate env this Value) :=
  keepsFists_of_same _ (by
    intro this this1 calls h
    simp only [TurnAtRate] at h
    split at h
    · cases h
    · simp only [AddControllerYawInput, Except.ok.injEq, Prod.mk.injEq] at h
      exact h.1.symm)

theorem keepsFists_LookUpAtRate (env : Environment) (Value : Rat) :
    KeepsFists (fun this => LookUpAtRate env this Value) :=
  keepsFists_of_same _ (by
    intro this this1 calls h
    simp only [LookUpAtRate] at h
    split at h
    · cases h
    · simp only [AddControllerPitchInput, Except.ok.injEq, Prod.mk.injEq] at h
      exact h.1.symm)

theorem keepsFists_OnAttackHit (env : Environment) (Hit : FHitResult) :
    KeepsFists (fun this => OnAttackHit env this Hit) :=
  keepsFists_of_same _ (by
    intro this this1 calls h
    simp only [OnAttackHit] at h
    split at h
    · cases h
    · split at h <;>
      · simp only [Except.ok.injEq, Prod.mk.injEq] at h
        exact h.1.symm)

theorem keepsFists_BeginPlay (env : Environment) : KeepsFists (BeginPlay env) := by
  intro this this1 calls h
  unfold BeginPlay at h
  split at h
  · cases h
  · rename_i left hl
    split at h
    · cases h
    · rename_i right hr
      cases h
      simp only [fistsArmed, fistsDisarmed, boxReports, hl, hr]
      exact ⟨id, id⟩

theorem keepsFists_runHandlers (handlers : List (APunchKick01Character → Outcome))
    (hall : ∀ handler ∈ handlers, KeepsFists handler) : KeepsFists (runHandlers handlers) := by
  induction handlers with
  | nil =>
    intro this this1 calls h
    simp only [runHandlers, Except.ok.injEq, Prod.mk.injEq] at h
    rw [← h.1]
    exact ⟨id, id⟩
  | cons handler rest ih =>
    intro this this1 calls h
    simp only [runHandlers] at h
    split at h
    · cases h
    · rename_i mid calls1 hfirst
      split at h
      · cases h
      · rename_i last calls2 hrest
        simp only [Except.ok.injEq, Prod.mk.injEq] at h
        rw [← h.1]
        have h1 := hall handler (List.mem_cons_self _ _) this mid calls1 hfirst
        have h2 := ih (fun g hg => hall g (List.mem_cons_of_mem _ hg)) mid last calls2 hrest
        exact ⟨fun ha => h2.1 (h1.1 ha), fun hd => h2.2 (h1.2 hd)⟩

theorem PlayerInput_bindings :
    PlayerInput
      = { ActionBindings :=
            [ ("Jump", EInputEvent.IE_Pressed, ActionHandler.Jump),
              ("Jump", EInputEvent.IE_Released, ActionHandler.StopJumping),
              ("ResetVR", EInputEvent.IE_Pressed, ActionHandler.OnResetVR),
              ("Attack", EInputEvent.IE_Pressed, ActionHandler.AttackInput),
              ("Attack", EInputEvent.IE_Released, ActionHandler.AttackEnd) ]
          AxisBindings :=
            [ ("MoveForward", AxisHandler.MoveForward),
              ("MoveRight", AxisHandler.MoveRight),
              ("Turn", AxisHandler.AddControllerYawInput),
              ("TurnRate", AxisHandler.TurnAtRate),
              ("LookUp", AxisHandler.AddControllerPitchInput),
              ("LookUpRate", AxisHandler.LookUpAtRate) ]
          TouchBindings :=
            [ (EInputEvent.IE_Pressed, TouchHandler.TouchStarted),
              (EInputEvent.IE_Released, TouchHandler.TouchStopped) ] } :=
  rfl

theorem keepsFists_axis (env : Environment) (handler : AxisHandler) (Value : Rat) :
    KeepsFists (fun this => handler.call env this Value) := by
  cases handler
  · exact keepsFists_MoveForward env Value
  · exact keepsFists_MoveRight env Value
  · exact keepsFists_AddControllerYawInput env Value
  · exact keepsFists_TurnAtRate env Value
  · exact keepsFists_AddControllerPitchInput env Value
  · exact keepsFists_LookUpAtRate env Value

theorem keepsFists_touch (env : Environment) (handler : TouchHandler) (FingerIndex : Nat)
    (Location : FVector) : KeepsFists (fun this => handler.call env this FingerIndex Location) := by
  cases handler
  · exact keepsFists_Jump env
  · exact keepsFists_StopJumping env

theorem keepsFists_action (env : Environment) (handler : ActionHandler)
    (hnot : handler ≠ ActionHandler.AttackEnd) : KeepsFists (handler.call env) := by
  cases handler
  · exact keepsFists_Jump env
  · exact keepsFists_StopJumping env
  · exact keepsFists_OnResetVR env
  · exact keepsFists_AttackInput env
  · exact absurd rfl hnot

theorem keepsFists_OnInput (env : Environment) (input : InputEvent)
    (hnot : isAttackRelease input = false) : KeepsFists (fun this => OnInput env this input) := by
  unfold OnInput
  apply keepsFists_runHandlers
  intro handler hmem
  cases input with
  | Action ActionName KeyEvent =>
    simp only [UInputComponent.handlersFor, List.mem_map, List.mem_filter] at hmem
    obtain ⟨binding, ⟨hbound, hmatch⟩, hcall⟩ := hmem
    rw [← hcall]
    apply keepsFists_action
    intro hend
    rw [PlayerInput_bindings] at hbound
    simp only [List.mem_cons, List.mem_singleton, List.not_mem_nil, or_false] at hbound
    simp only [decide_eq_true_eq] at hmatch
    apply Bool.false_ne_true
    rw [← hnot]
    unfold isAttackRelease
    rw [decide_eq_true_eq, ← hmatch.1, ← hmatch.2]
    rcases hbound with h | h | h | h | h <;> rw [h] at hend ⊢ <;> first | rfl | cases hend
  | Axis AxisName AxisValue =>
    simp only [UInputComponent.handlersFor, List.mem_map, List.mem_filter] at hmem
    obtain ⟨binding, _, hcall⟩ := hmem
    rw [← hcall]
    exact keepsFists_axis env binding.2 AxisValue
  | Touch KeyEvent FingerIndex Location =>
    simp only [UInputComponent.handlersFor, List.mem_map, List.mem_filter] at hmem
    obtain ⟨binding, _, hcall⟩ := hmem
    rw [← hcall]
    exact keepsFists_touch env binding.2 FingerIndex Location

theorem OnInput_release (env : Environment) (input : InputEvent)
    (hrelease : isAttackRelease input = true) (this this1 : APunchKick01Character)
    (calls : List EngineCall) (h : OnInput env this input = Except.ok (this1, calls)) :
    fistsDisarmed this1 := by
  unfold isAttackRelease at hrelease
  rw [decide_eq_true_eq] at hrelease
  subst hrelease
  have hlist : PlayerInput.handlersFor env (InputEvent.Action "Attack" EInputEvent.IE_Released)
      = [AttackEnd env] := rfl
  simp only [OnInput, hlist, runHandlers] at h
  split at h
  · cases h
  · rename_i mid calls1 hend
    simp only [Except.ok.injEq, Prod.mk.injEq] at h
    rw [← h.1]
    exact AttackEnd_disarmed env this mid calls1 hend

theorem ownMesh_iff (self : ActorId) (MeshComp : Option USkeletalMeshComponent) :
    ownMesh self MeshComp = true ↔ ∃ mesh, MeshComp = some mesh ∧ mesh.Owner = some self := by
  cases MeshComp with
  | none => simp [ownMesh]
  | some mesh => simp [ownMesh]

theorem resolvedCharacter_own (self : ActorId) (level : Level)
    (MeshComp : Option USkeletalMeshComponent) (this : APunchKick01Character)
    (hself : level.Actors self = AActor.PunchKick01Character this)
    (hown : ownMesh self MeshComp = true) :
    resolvedCharacter level MeshComp = some (self, this) := by
  obtain ⟨mesh, hmesh, howner⟩ := (ownMesh_iff self MeshComp).mp hown
  subst hmesh
  simp only [resolvedCharacter, howner, hself]

theorem resolvedCharacter_other (self : ActorId) (level : Level)
    (MeshComp : Option USkeletalMeshComponent) (owner : ActorId) (Player : APunchKick01Character)
    (hsome : resolvedCharacter level MeshComp = some (owner, Player))
    (hown : ownMesh self MeshComp = false) : owner ≠ self := by
  obtain ⟨mesh, hmesh, howner, _⟩ := resolvedCharacter_some level MeshComp owner Player hsome
  intro heq
  subst heq
  have : ownMesh owner MeshComp = true := (ownMesh_iff owner MeshComp).mpr ⟨mesh, hmesh, howner⟩
  rw [this] at hown
  cases hown

theorem fistsFollow_write_other (self : ActorId) (level : Level) (isOpen : Bool)
    (owner : ActorId) (Player : APunchKick01Character) (hother : owner ≠ self)
    (h : FistsFollow self level isOpen) : FistsFollow self (level.write owner Player) isOpen := by
  obtain ⟨this, hself, hfists⟩ := h
  refine ⟨this, ?_, hfists⟩
  have hne : ¬ self = owner := fun e => hother e.symm
  simp only [Level.write, hne, if_false, hself]

theorem fistsFollow_write_self (self : ActorId) (level : Level) (isOpen : Bool)
    (this : APunchKick01Character)
    (hfists : if isOpen then fistsArmed this else fistsDisarmed this) :
    FistsFollow self (level.write self this) isOpen :=
  ⟨this, by simp only [Level.write, if_true], hfists⟩

theorem fistsFollow_NotifyBegin (self : ActorId) (env : Environment) (level level1 : Level)
    (MeshComp : Option USkeletalMeshComponent) (TotalDuration : Rat) (isOpen : Bool)
    (calls : List EngineCall) (h : FistsFollow self level isOpen)
    (hstep : NotifyBegin env level MeshComp TotalDuration = Except.ok (level1, calls)) :
    FistsFollow self level1 (if ownMesh self MeshComp then true else isOpen) := by
  cases hengine : env.GEngine with
  | none => simp [NotifyBegin, hengine] at hstep
  | some engine =>
    obtain ⟨this, hself, hfists⟩ := h
    cases hres : resolvedCharacter level MeshComp with
    | none =>
      rw [NotifyBegin_unresolved env level MeshComp TotalDuration engine hengine hres] at hstep
      simp only [Except.ok.injEq, Prod.mk.injEq] at hstep
      rw [← hstep.1]
      cases hown : ownMesh self MeshComp with
      | true =>
        rw [resolvedCharacter_own self level MeshComp this hself hown] at hres
        cases hres
      | false => exact ⟨this, hself, hfists⟩
    | some found =>
      obtain ⟨owner, Player⟩ := found
      rw [NotifyBegin_resolved env level MeshComp TotalDuration engine hengine owner Player hres]
        at hstep
      split at hstep
      · cases hstep
      · rename_i Player1 calls1 hstart
        simp only [Except.ok.injEq, Prod.mk.injEq] at hstep
        rw [← hstep.1]
        cases hown : ownMesh self MeshComp with
        | true =>
          rw [resolvedCharacter_own self level MeshComp this hself hown] at hres
          simp only [Option.some.injEq, Prod.mk.injEq] at hres
          rw [← hres.1]
          exact fistsFollow_write_self self level true Player1
            (AttackStart_armed env Player Player1 calls1 hstart)
        | false =>
          exact fistsFollow_write_other self level isOpen owner Player1
            (resolvedCharacter_other self level MeshComp owner Player hres hown)
            ⟨this, hself, hfists⟩

theorem fistsFollow_NotifyEnd (self : ActorId) (env : Environment) (level level1 : Level)
    (MeshComp : Option USkeletalMeshComponent) (isOpen : Bool)
    (calls : List EngineCall) (h : FistsFollow self level isOpen)
    (hstep : NotifyEnd env level MeshComp = Except.ok (level1, calls)) :
    FistsFollow self level1 (if ownMesh self MeshComp then false else isOpen) := by
  cases hengine : env.GEngine with
  | none => simp [NotifyEnd, hengine] at hstep
  | some engine =>
    obtain ⟨this, hself, hfists⟩ := h
    cases hres : resolvedCharacter level MeshComp with
    | none =>
      rw [NotifyEnd_unresolved env level MeshComp engine hengine hres] at hstep
      simp only [Except.ok.injEq, Prod.mk.injEq] at hstep
      rw [← hstep.1]
      cases hown : ownMesh self MeshComp with
      | true =>
        rw [resolvedCharacter_own self level MeshComp this hself hown] at hres
        cases hres
      | false => exact ⟨this, hself, hfists⟩
    | some found =>
      obtain ⟨owner, Player⟩ := found
      rw [NotifyEnd_resolved env level MeshComp engine hengine owner Player hres] at hstep
      split at hstep
      · cases hstep
      · rename_i Player1 calls1 hend
        simp only [Except.ok.injEq, Prod.mk.injEq] at hstep
        rw [← hstep.1]
        cases hown : ownMesh self MeshComp with
        | true =>
          rw [resolvedCharacter_own self level MeshComp this hself hown] at hres
          simp only [Option.some.injEq, Prod.mk.injEq] at hres
          rw [← hres.1]
          exact fistsFollow_write_self self level false Player1
            (AttackEnd_disarmed env Player Player1 calls1 hend)
        | false =>
          exact fistsFollow_write_other self level isOpen owner Player1
            (resolvedCharacter_other self level MeshComp owner Player hres hown)
            ⟨this, hself, hfists⟩

theorem fistsFollow_onCharacter (self : ActorId) (level level1 : Level) (isOpen isOpen1 : Bool)
    (who : ActorId) (handler : APunchKick01Character → Outcome) (calls : List EngineCall)
    (h : FistsFollow self level isOpen)
    (hstep : onCharacter level who handler = Except.ok (level1, calls))
    (hother : who ≠ self → isOpen1 = isOpen)
    (hself : who = self → ∀ this this1 calls1, handler this = Except.ok (this1, calls1) →
      (if isOpen then fistsArmed this else fistsDisarmed this) →
      (if isOpen1 then fistsArmed this1 else fistsDisarmed this1)) :
    FistsFollow self level1 isOpen1 := by
  obtain ⟨this, hactor, hfists⟩ := h
  unfold onCharacter at hstep
  by_cases hwho : who = self
  · subst hwho
    simp only [hactor, Cast] at hstep
    split at hstep
    · cases hstep
    · rename_i this1 calls1 hcall
      simp only [Except.ok.injEq, Prod.mk.injEq] at hstep
      rw [← hstep.1]
      exact fistsFollow_write_self who level isOpen1 this1
        (hself rfl this this1 calls1 hcall hfists)
  · rw [hother hwho]
    split at hstep
    · simp only [Except.ok.injEq, Prod.mk.injEq] at hstep
      rw [← hstep.1]
      exact ⟨this, hactor, hfists⟩
    · split at hstep
      · cases hstep
      · rename_i this1 calls1 _
        simp only [Except.ok.injEq, Prod.mk.injEq] at hstep
        rw [← hstep.1]
        exact fistsFollow_write_other self level isOpen who this1 hwho ⟨this, hactor, hfists⟩

theorem keepsFists_follow (handler : APunchKick01Character → Outcome) (hkeeps : KeepsFists handler)
    (isOpen : Bool) (this this1 : APunchKick01Character) (calls : List EngineCall)
    (hcall : handler this = Except.ok (this1, calls))
    (hfists : if isOpen then fistsArmed this else fistsDisarmed this) :
    if isOpen then fistsArmed this1 else fistsDisarmed this1 := by
  cases isOpen with
  | true => exact (hkeeps this this1 calls hcall).1 hfists
  | false => exact (hkeeps this this1 calls hcall).2 hfists

theorem fistsFollow_step (self : ActorId) (level level1 : Level) (event : Event) (isOpen : Bool)
    (calls : List EngineCall) (h : FistsFollow self level isOpen)
    (hstep : step level event = Except.ok (level1, calls)) :
    FistsFollow self level1 (armedWindow self isOpen event.callback) := by
  unfold step at hstep
  cases hcb : event.callback with
  | NotifyBegin MeshComp TotalDuration =>
    rw [hcb] at hstep
    exact fistsFollow_NotifyBegin self event.env level level1 MeshComp TotalDuration isOpen calls
      h hstep
  | NotifyEnd MeshComp =>
    rw [hcb] at hstep
    exact fistsFollow_NotifyEnd self event.env level level1 MeshComp isOpen calls h hstep
  | BeginPlay who =>
    rw [hcb] at hstep
    exact fistsFollow_onCharacter self level level1 isOpen isOpen who _ calls h hstep
      (fun _ => rfl)
      (fun _ this this1 calls1 hcall hfists =>
        keepsFists_follow _ (keepsFists_BeginPlay event.env) isOpen this this1 calls1 hcall hfists)
  | OnComponentHit who Hit =>
    rw [hcb] at hstep
    exact fistsFollow_onCharacter self level level1 isOpen isOpen who _ calls h hstep
      (fun _ => rfl)
      (fun _ this this1 calls1 hcall hfists =>
        keepsFists_follow _ (keepsFists_OnAttackHit event.env Hit) isOpen this this1 calls1 hcall
          hfists)
  | Input who input =>
    rw [hcb] at hstep
    simp only [armedWindow]
    cases hrelease : isAttackRelease input with
    | true =>
      apply fistsFollow_onCharacter self level level1 isOpen _ who _ calls h hstep
      · intro hother
        simp [hother]
      · intro hwho this this1 calls1 hcall _
        simp only [hwho, and_self, decide_True, if_true]
        exact OnInput_release event.env input hrelease this this1 calls1 hcall
    | false =>
      apply fistsFollow_onCharacter self level level1 isOpen _ who _ calls h hstep
      · intro _
        simp
      · intro _ this this1 calls1 hcall hfists
        simp only [Bool.false_eq_true, and_false, decide_False, if_false]
        exact keepsFists_follow _ (keepsFists_OnInput event.env input hrelease) isOpen this this1
          calls1 hcall hfists

theorem fistsFollow_run (self : ActorId) (events : List Event) (level level1 : Level)
    (isOpen : Bool) (calls : List EngineCall) (h : FistsFollow self level isOpen)
    (hrun : run level events = Except.ok (level1, calls)) :
    FistsFollow self level1
      (events.foldl (fun o event => armedWindow self o event.callback) isOpen) := by
  induction events generalizing level isOpen calls with
  | nil =>
    simp only [run, Except.ok.injEq, Prod.mk.injEq] at hrun
    rw [← hrun.1]
    exact h
  | cons event rest ih =>
    simp only [run] at hrun
    split at hrun
    · cases hrun
    · rename_i mid calls1 hstep
      split at hrun
      · cases hrun
      · rename_i last calls2 hrest
        simp only [Except.ok.injEq, Prod.mk.injEq] at hrun
        obtain ⟨hlast, _⟩ := hrun
        subst hlast
        exact ih mid _ calls2 (fistsFollow_step self level mid event isOpen calls1 h hstep) hrest

theorem armedWindow_le_notifyWindow (self : ActorId) (events : List Event) (a n : Bool)
    (hle : a = true → n = true)
    (h : events.foldl (fun o event => armedWindow self o event.callback) a = true) :
    events.foldl (fun o event => notifyWindow self o event.callback) n = true := by
  induction events generalizing a n with
  | nil => exact hle h
  | cons event rest ih =>
    simp only [List.foldl_cons] at h ⊢
    refine ih _ _ ?_ h
    cases hcb : event.callback with
    | NotifyBegin MeshComp TotalDuration =>
      simp only [armedWindow, notifyWindow]
      split
      · exact fun _ => rfl
      · exact hle
    | NotifyEnd MeshComp =>
      simp only [armedWindow, notifyWindow]
      split
      · exact fun hf => hf
      · exact hle
    | BeginPlay who => exact hle
    | OnComponentHit who Hit => exact hle
    | Input who input =>
      simp only [armedWindow, notifyWindow]
      split
      · intro hf
        cases hf
      · exact hle

theorem fistsFollow_construct (self : ActorId) (level : Level)
    (montage : Option UAnimMontage) (cue : Option USoundCue)
    (hstart : level.Actors self
      = AActor.PunchKick01Character (APunchKick01Character.construct montage cue)) :
    FistsFollow self level false :=
  ⟨_, hstart, by
    simp [fistsDisarmed, boxReports, APunchKick01Character.construct,
      UBoxComponent.SetCollisionProfileName, UBoxComponent.SetNotifyRigidBodyCollision]⟩

/-- C5: in every state reached from the constructed character by callbacks
(`NotifyBegin` and `NotifyEnd` on any mesh, `BeginPlay`, any input, any hit),
if no `NotifyBegin` on the mesh of the character has occurred since the start
or since the last `NotifyEnd` on that mesh, both fist volumes have profile
"NoCollision" and hit notification disabled. In particular the constructor
leaves both fists disarmed, and `AttackInput` returns the character
unchanged. -/
theorem C5_disarmed_outside_window (self : ActorId) (level : Level)
    (montage : Option UAnimMontage) (cue : Option USoundCue)
    (hstart : level.Actors self
      = AActor.PunchKick01Character (APunchKick01Character.construct montage cue))
    (events : List Event) (level1 : Level) (calls : List EngineCall)
    (hrun : run level events = Except.ok (level1, calls))
    (hwindow : inNotifyWindow self events = false) :
    (∃ this, level1.Actors self = AActor.PunchKick01Character this ∧ fistsDisarmed this)
      ∧ fistsDisarmed (APunchKick01Character.construct montage cue)
      ∧ (∀ env this, ∃ logged, AttackInput env this = Except.ok (this, logged)) := by
  have hfollow := fistsFollow_run self events level level1 false calls
    (fistsFollow_construct self level montage cue hstart) hrun
  have hclosed : events.foldl (fun o event => armedWindow self o event.callback) false = false := by
    cases hopen : events.foldl (fun o event => armedWindow self o event.callback) false with
    | false => rfl
    | true =>
      have := armedWindow_le_notifyWindow self events false false id hopen
      unfold inNotifyWindow at hwindow
      rw [hwindow] at this
      cases this
  rw [hclosed] at hfollow
  obtain ⟨this, hactor, hfists⟩ := hfollow
  refine ⟨⟨this, hactor, hfists⟩, ?_, ?_⟩
  · simp [fistsDisarmed, boxReports, APunchKick01Character.construct,
      UBoxComponent.SetCollisionProfileName, UBoxComponent.SetNotifyRigidBodyCollision]
  · intro env this
    exact ⟨_, rfl⟩

theorem C5_witness :
    ∃ level1 calls,
      run startLevel sampleEvents = Except.ok (level1, calls)
        ∧ inNotifyWindow 0 sampleEvents = false
        ∧ ∃ this, level1.Actors 0 = AActor.PunchKick01Character this ∧ fistsDisarmed this :=
  ⟨_, _, rfl, rfl,
    (C5_disarmed_outside_window 0 startLevel _ _ rfl sampleEvents _ _ rfl rfl).1⟩

/-- C6, as stated, fails: after `NotifyBegin` on the mesh of the character and
before any `NotifyEnd`, the release of the Attack action, which
`SetupPlayerInputComponent` binds to `AttackEnd`, leaves both fists
disarmed. -/
theorem C6_counterexample :
    ∃ level1 calls this,
      run startLevel sampleReleaseEvents = Except.ok (level1, calls)
        ∧ inNotifyWindow 0 sampleReleaseEvents = true
        ∧ level1.Actors 0 = AActor.PunchKick01Character this
        ∧ ¬ fistsArmed this
        ∧ fistsDisarmed this :=
  ⟨_, _, _, rfl, rfl, rfl, by decide, by decide⟩

/-- C6, amended: in every state reached from the constructed character by
callbacks, if a `NotifyBegin` on the mesh of the character has occurred and
since then neither a `NotifyEnd` on that mesh nor a release of the Attack
action on the character, both fist volumes are armed (profile "Weapon", hit
notification enabled), whatever other callbacks occurred in between. -/
theorem C6_armed_window (self : ActorId) (level : Level)
    (montage : Option UAnimMontage) (cue : Option USoundCue)
    (hstart : level.Actors self
      = AActor.PunchKick01Character (APunchKick01Character.construct montage cue))
    (events : List Event) (level1 : Level) (calls : List EngineCall)
    (hrun : run level events = Except.ok (level1, calls))
    (hwindow : inArmedWindow self events = true) :
    ∃ this, level1.Actors self = AActor.PunchKick01Character this ∧ fistsArmed this := by
  have hfollow := fistsFollow_run self events level level1 false calls
    (fistsFollow_construct self level montage cue hstart) hrun
  unfold inArmedWindow at hwindow
  rw [hwindow] at hfollow
  exact hfollow

theorem C6_witness :
    ∃ level1 calls,
      run startLevel sampleOpenEvents = Except.ok (level1, calls)
        ∧ inArmedWindow 0 sampleOpenEvents = true
        ∧ ∃ this, level1.Actors 0 = AActor.PunchKick01Character this ∧ fistsArmed this :=
  ⟨_, _, rfl, rfl, C6_armed_window 0 startLevel _ _ rfl sampleOpenEvents _ _ rfl rfl⟩


end PunchKick01
